import Mathlib

/-!
# OpcServer lifecycle: a shallow embedding of `Server/src/opcserver.cpp`

The private state of `OpcServer` is a record, every public method is a function
on a `World` (the object, an allocation counter and the chronological list of
calls made on collaborators).  The SDK classes (`CoreModule`, `UaModule`,
`NodeManager`, `ServerManager`, a `ServerConfig` handed in by the application)
are not part of the file: what they return is supplied by an oracle record, one
per call of the method, so that every combination of outcomes is covered.  In
`start` the server manager `getServerManager()` returns is an object; the same
code with a pointer that may be `NULL` is `startNullable`.

Pointers are `Option Handle` (`none` is `NULL`); a method whose body calls
through a pointer that is `NULL` has no defined result and returns `none`.
The `TRACEn_*` logging lines and the mutex guard are not modelled.
-/

namespace OpcServerModel

/-- Identity of a heap object or of an object owned by the application. -/
abbrev Handle := Nat

/-- The SDK status value: a 32 bit code whose two top bits give the severity. -/
structure UaStatus where
  statusCode : Nat
deriving DecidableEq, Repr

def OpcUa_Good : UaStatus := ⟨0⟩

def OpcUa_Bad : UaStatus := ⟨0x80000000⟩

/-- Severity bits are both zero. -/
def UaStatus.isGood (s : UaStatus) : Bool := (s.statusCode / 0x40000000) % 4 == 0

def UaStatus.isNotGood (s : UaStatus) : Bool := !s.isGood

/-- Pair (locale, text) of `UaLocalizedText`. -/
structure UaLocalizedText where
  locale : String
  text : String
deriving DecidableEq, Repr

/-- What `m_pServerConfig` can point to: one of the two adapters defined in the
file (with their constructor arguments) or an object built by the application. -/
inductive ServerConfig where
  | basicIni (obj : Handle) (sIniFileName sApplicationPath : String)
      (pOpcServerCallback : Option Handle)
  | basicXml (obj : Handle) (sXmlFileName sApplicationPath : String)
      (pOpcServerCallback : Option Handle)
  | application (obj : Handle)
deriving DecidableEq, Repr

/-- Calls on collaborators, object construction and destruction, console output. -/
inductive Event where
  | newServerConfig (cfg : ServerConfig)
  | stdout (line : String)
  | loadConfiguration (cfg : ServerConfig) (ret : UaStatus)
  | getStackTraceSettings (cfg : ServerConfig)
  | getServerTraceSettings (cfg : ServerConfig)
  | getServerInstanceInfo (cfg : ServerConfig)
  | initTrace (level maxEntries maxBackupFiles : Nat) (file uri : String)
  | setTraceActive
  | setStackTraceActive (level : Nat)
  | closeTrace
  | newCoreModule (core : Handle)
  | coreInit (core : Handle) (ret : Int)
  | newUaModule (ua : Handle)
  | createUaServer (cb : Handle) (ret : Option Handle)
  | uaInit (ua : Handle) (cfg : ServerConfig) (pUaServer : Option Handle) (ret : Int)
  | coreStartUp (core : Handle) (cfg : ServerConfig) (ret : Int)
  | coreGetServerManager (core : Handle) (ret : Option Handle)
  | cfgStartUp (cfg : ServerConfig) (sm : Option Handle) (ret : UaStatus)
  | coreShutDown (core : Handle)
  | nmStartUp (nm : Handle) (sm : Option Handle) (ret : UaStatus)
  | uaStartUp (ua core : Handle) (ret : Int)
  | uaShutDown (ua : Handle)
  | deleteUaModule (ua : Handle)
  | deleteCoreModule (core : Handle)
  | cfgShutDown (cfg : ServerConfig)
  | deleteServerConfig (cfg : ServerConfig)
  | getEndpointConfiguration (cfg : ServerConfig)
  | startServerShutDown (sm : Handle) (seconds : Int) (reason : UaLocalizedText)
      (clientCount : Nat)
  | sleep (seconds : Int)
  | nmShutDown (nm : Handle)
  | deleteNodeManager (nm : Handle)
  | getNodeManagerNS1 (sm : Handle) (ret : Handle)
  | getNodeManagerConfig (nm : Handle) (ret : Handle)
deriving DecidableEq, Repr

/-- The members of `class OpcServerPrivate` (the mutex apart). -/
structure OpcServerPrivate where
  m_isStarted : Bool
  m_configurationFile : String
  m_applicationPath : String
  m_pServerConfig : Option ServerConfig
  m_pServerManager : Option Handle
  m_pCoreModule : Option Handle
  m_pUaModule : Option Handle
  m_pOpcServerCallback : Option Handle
  m_listNodeManagers : List Handle
deriving DecidableEq, Repr

/-- The `OpcServer` object, the next free heap identity and the calls made so far. -/
structure World where
  d : OpcServerPrivate
  m_logFilePath : String
  m_quasarCallback : Option Handle
  nextId : Nat
  trace : List Event
deriving DecidableEq, Repr

/-- Constructor `OpcServerPrivate()`: flag false, every pointer `NULL`. -/
def OpcServerPrivate.new : OpcServerPrivate :=
  { m_isStarted := false
    m_configurationFile := ""
    m_applicationPath := ""
    m_pServerConfig := none
    m_pServerManager := none
    m_pCoreModule := none
    m_pUaModule := none
    m_pOpcServerCallback := none
    m_listNodeManagers := [] }

def World.emit (w : World) (es : List Event) : World :=
  { w with trace := w.trace ++ es }

def World.setD (w : World) (d : OpcServerPrivate) : World :=
  { w with d := d }

/-! ## The extension test on `UaUniString` -/

/-- Does `pat` occur at the head of `s`? -/
def startsWithChars : List Char → List Char → Bool
  | [], _ => true
  | _ :: _, [] => false
  | p :: ps, c :: cs => p == c && startsWithChars ps cs

/-- Left to right scan keeping the index of the latest match (`best`). -/
def lastIndexOfFrom (pat : List Char) : List Char → Nat → Int → Int
  | [], i, best => if startsWithChars pat [] then (i : Int) else best
  | c :: cs, i, best =>
    lastIndexOfFrom pat cs (i + 1) (if startsWithChars pat (c :: cs) then (i : Int) else best)

/-- `UaUniString::lastIndexOf(str)`: index of the last occurrence, `-1` when there is none. -/
def lastIndexOf (s pat : String) : Int :=
  lastIndexOfFrom pat.toList s.toList 0 (-1)

/-- `UaUniString::toLower()` on the letters `A` to `Z`. -/
def toLower (s : String) : String := String.mk (s.toList.map Char.toLower)

/-- The test `sConfigFile.lastIndexOf(ext) > (sConfigFile.length() - 5)` in `int`. -/
def extensionTest (sConfigFile ext : String) : Bool :=
  decide (lastIndexOf sConfigFile ext > (sConfigFile.length : Int) - 5)

/-- Does `s` end in `ext`?  This is the reading of "the file name has extension `ext`". -/
def endsWith (s ext : String) : Bool :=
  s.toList.drop (s.length - ext.length) == ext.toList

/-! ## Outcomes of the collaborators -/

/-- Everything the collaborators return during one call of `start`.  The field
`getServerManager` is the object `CoreModule::getServerManager()` returns at line 392:
`start` is the code under the post-condition of the SDK that this pointer is not `NULL`
after a successful `startUp`; `startNullable` is the code without it. -/
structure StartOracle where
  loadConfiguration : UaStatus
  bTraceEnabled : Bool
  uTraceLevel : Nat
  bSdkTraceEnabled : Bool
  uSdkTraceLevel : Nat
  uMaxTraceEntries : Nat
  uMaxBackupFiles : Nat
  sTraceFile : String
  sServerUri : String
  coreInit : Int
  createUaServer : Option Handle
  uaInit : Int
  coreStartUp : Int
  getServerManager : Handle
  cfgStartUp : UaStatus
  nmStartUp : Nat → UaStatus
  uaStartUp : Int
  getServerManagerAfterShutDown : Option Handle
  endpointUrls : List String

/-- `startUp(ServerManager*)` of the config object: the two adapters of the file
return `OpcUa_Good`, an object of the application returns what it likes. -/
def ServerConfig.startUp (cfg : ServerConfig) (applicationRet : UaStatus) : UaStatus :=
  match cfg with
  | .basicIni _ _ _ _ => OpcUa_Good
  | .basicXml _ _ _ _ => OpcUa_Good
  | .application _ => applicationRet

/-! ## The setters -/

/-- `OpcServer::setServerConfig(const UaString&, const UaString&)`. -/
def setServerConfigFile (configurationFile applicationPath : String) (w : World) : Int × World :=
  if w.d.m_isStarted != false then
    (-1, w)
  else
    (0, w.setD { w.d with m_configurationFile := configurationFile
                          m_applicationPath := applicationPath })

/-- `OpcServer::setServerConfig(ServerConfig*)`: the pointer is `NULL` or an object of
the application (the two adapters of the file are not visible outside it). -/
def setServerConfig (pServerConfig : Option Handle) (w : World) : Int × World :=
  if w.d.m_isStarted != false then
    (-1, w)
  else
    (0, w.setD { w.d with m_pServerConfig := pServerConfig.map ServerConfig.application })

/-- `OpcServer::setCallback(OpcServerCallback*)`. -/
def setCallback (pOpcServerCallback : Option Handle) (w : World) : Int × World :=
  if w.d.m_isStarted != false then
    (-1, w)
  else
    (0, w.setD { w.d with m_pOpcServerCallback := pOpcServerCallback })

/-- `OpcServer::addNodeManager(NodeManager*)`; `ret` is what the manager's
`startUp` returns if it is called. -/
def addNodeManager (pNodeManager : Handle) (ret : UaStatus) (w : World) : Int × World :=
  let w1 := w.setD { w.d with m_listNodeManagers := w.d.m_listNodeManagers ++ [pNodeManager] }
  if w1.d.m_isStarted != false then
    let w2 := w1.emit [Event.nmStartUp pNodeManager w1.d.m_pServerManager ret]
    if ret.isNotGood then (-1, w2) else (0, w2)
  else
    (0, w1)

/-- Constructor `OpcServer::OpcServer()`: the callback object is the first heap object. -/
def OpcServer.new : World :=
  let w : World :=
    { d := OpcServerPrivate.new
      m_logFilePath := ""
      m_quasarCallback := some 0
      nextId := 1
      trace := [] }
  (setCallback w.m_quasarCallback w).2

/-- The line printed at line 314 (`std::endl` included). -/
def noConfigurationMessage : String :=
  "Failed to load server configuration file " ++
    "(typically called ServerConfig.xml or ServerConfig.ini) \n"

/-! ## `OpcServer::start` -/

/-- Lines 298-309: the adapter chosen from the lower-cased file name, if any; `obj` is
the identity the new object gets. -/
def defaultConfig (SUPPORT_XML_CONFIG : Bool) (obj : Handle) (d : OpcServerPrivate) :
    Option ServerConfig :=
  let sConfigFile := toLower d.m_configurationFile
  if extensionTest sConfigFile ".ini" then
    some (ServerConfig.basicIni obj d.m_configurationFile d.m_applicationPath
      d.m_pOpcServerCallback)
  else if SUPPORT_XML_CONFIG && extensionTest sConfigFile ".xml" then
    some (ServerConfig.basicXml obj d.m_configurationFile d.m_applicationPath
      d.m_pOpcServerCallback)
  else none

/-- Lines 295-310: build the default configuration object if the application gave none. -/
def createDefaultConfig (SUPPORT_XML_CONFIG : Bool) (w : World) : World :=
  if w.d.m_pServerConfig == none then
    match defaultConfig SUPPORT_XML_CONFIG w.nextId w.d with
    | some cfg =>
      { w with d := { w.d with m_pServerConfig := some cfg }
               nextId := w.nextId + 1
               trace := w.trace ++ [Event.newServerConfig cfg] }
    | none => w
  else w

/-- Lines 319-352: load the configuration and, if that is good, set up tracing. -/
def checkTraceSettings (o : StartOracle) (cfg : ServerConfig) (w : World) : World :=
  let w1 := w.emit [Event.loadConfiguration cfg o.loadConfiguration]
  if o.loadConfiguration.isGood then
    let w2 := w1.emit [Event.getStackTraceSettings cfg, Event.getServerTraceSettings cfg]
    if o.bSdkTraceEnabled != false then
      let w3 := { w2 with m_logFilePath := o.sTraceFile }
      let w4 := w3.emit [Event.getServerInstanceInfo cfg,
        Event.initTrace o.uSdkTraceLevel o.uMaxTraceEntries o.uMaxBackupFiles o.sTraceFile o.sServerUri,
        Event.setTraceActive]
      if o.bTraceEnabled != false then w4.emit [Event.setStackTraceActive o.uTraceLevel] else w4
    else w2
  else w1

/-- Lines 403-413: call `startUp` on every manager of the list, front to back; the
status of the manager at position `i` is `ret i` and is only logged. -/
def startNodeManagers (sm : Option Handle) (ret : Nat → UaStatus) :
    Nat → List Handle → List Event
  | _, [] => []
  | i, nm :: rest => Event.nmStartUp nm sm (ret i) :: startNodeManagers sm ret (i + 1) rest

/-- Lines 439-454: read the endpoints and print them. -/
def printEndpoints (cfg : ServerConfig) (urls : List String) : List Event :=
  Event.getEndpointConfiguration cfg ::
    (if urls.length > 0 then
      [Event.stdout "***************************************************\n",
       Event.stdout " Server opened endpoints for following URLs:\n"] ++
      urls.map (fun u => Event.stdout ("     " ++ u ++ "\n")) ++
      [Event.stdout "***************************************************\n"]
    else [])

/-- Lines 368-373: `pUaServer` stays `NULL` unless a callback is set, which is then
asked for a specialised `UaServer` (it answers `ret`). -/
def askUaServer (cb : Option Handle) (ret : Option Handle) : Option Handle × List Event :=
  match cb with
  | some c => (ret, [Event.createUaServer c ret])
  | none => (none, [])

/-- Lines 356-460, entered with a configuration object `cfg`. -/
def startModules (o : StartOracle) (cfg : ServerConfig) (w : World) : Int × World :=
  -- Create and initialize core server module
  let core := w.nextId
  let w := { w with d := { w.d with m_pCoreModule := some core }
                    nextId := w.nextId + 1
                    trace := w.trace ++ [Event.newCoreModule core, Event.coreInit core o.coreInit] }
  if 0 ≠ o.coreInit then
    (o.coreInit, w.emit [Event.closeTrace])
  else
  -- Create and initialize UA server module
  let ua := w.nextId
  let w := { w with d := { w.d with m_pUaModule := some ua }
                    nextId := w.nextId + 1
                    trace := w.trace ++ [Event.newUaModule ua] }
  let pUaServer := (askUaServer w.d.m_pOpcServerCallback o.createUaServer).1
  let w := w.emit (askUaServer w.d.m_pOpcServerCallback o.createUaServer).2
  let w := w.emit [Event.uaInit ua cfg pUaServer o.uaInit]
  if 0 ≠ o.uaInit then
    (o.uaInit, w.emit [Event.closeTrace])
  else
  -- Start core server module
  let w := w.emit [Event.coreStartUp core cfg o.coreStartUp]
  if 0 ≠ o.coreStartUp then
    (o.coreStartUp, w.emit [Event.closeTrace])
  else
  let sm : Option Handle := some o.getServerManager
  let uaStatus := cfg.startUp o.cfgStartUp
  let w := { w with d := { w.d with m_pServerManager := sm }
                    trace := w.trace ++ [Event.coreGetServerManager core sm,
                                         Event.cfgStartUp cfg sm uaStatus] }
  if uaStatus.isNotGood then
    (-1, w.emit [Event.coreShutDown core, Event.closeTrace])
  else
  -- Start NodeManagers
  let w := w.emit (startNodeManagers sm o.nmStartUp 0 w.d.m_listNodeManagers)
  -- Start UA server module
  let w := w.emit [Event.uaStartUp ua core o.uaStartUp]
  if 0 ≠ o.uaStartUp then
    let w := { w with d := { w.d with m_pUaModule := none }
                      trace := w.trace ++ [Event.uaShutDown ua, Event.deleteUaModule ua] }
    let w := { w with d := { w.d with m_pServerManager := o.getServerManagerAfterShutDown
                                      m_pCoreModule := none }
                      trace := w.trace ++ [Event.coreShutDown core,
                        Event.coreGetServerManager core o.getServerManagerAfterShutDown,
                        Event.deleteCoreModule core] }
    let w := { w with d := { w.d with m_pServerConfig := none }
                      trace := w.trace ++ [Event.cfgShutDown cfg, Event.deleteServerConfig cfg] }
    (o.uaStartUp, w.emit [Event.closeTrace])
  else
  let w := w.emit (printEndpoints cfg o.endpointUrls)
  let w := { w with d := { w.d with m_isStarted := true } }
  (0, w)

/-- `OpcServer::start()`. -/
def start (SUPPORT_XML_CONFIG : Bool) (o : StartOracle) (w : World) : Int × World :=
  if w.d.m_isStarted != false then
    -- Error, the method is called after the server was already started
    (-1, w)
  else
  -- Create default configuration object if not provided by the application
  let w := createDefaultConfig SUPPORT_XML_CONFIG w
  match w.d.m_pServerConfig with
  | none =>
    -- We have no configuration
    (-1, w.emit [Event.stdout noConfigurationMessage])
  | some cfg =>
    -- Check trace settings
    startModules o cfg (checkTraceSettings o cfg w)

/-! ## `OpcServer::stop` -/

/-- Lines 505-513: shut down and delete every manager of the list, front to back. -/
def stopNodeManagers : List Handle → List Event
  | [] => []
  | nm :: rest => Event.nmShutDown nm :: Event.deleteNodeManager nm :: stopNodeManagers rest

/-- Lines 490-495: nothing is called when the pointer is `NULL`. -/
def stopUaModule : Option Handle → List Event
  | some ua => [Event.uaShutDown ua, Event.deleteUaModule ua]
  | none => []

/-- Lines 498-503: nothing is called when the pointer is `NULL`. -/
def stopCoreModule : Option Handle → List Event
  | some core => [Event.coreShutDown core, Event.deleteCoreModule core]
  | none => []

/-- Lines 517-522: nothing is called when the pointer is `NULL`. -/
def stopServerConfig : Option ServerConfig → List Event
  | some cfg => [Event.cfgShutDown cfg, Event.deleteServerConfig cfg]
  | none => []

/-- `OpcServer::stop(secondsTillShutdown, shutdownReason)`; `clientCount` is what
`startServerShutDown` returns.  No result when `m_pServerManager` is `NULL` in a
started server (the call at line 483 goes through it).  Each of the three guarded
blocks leaves its pointer `NULL`, whether it was set or not. -/
def stop (secondsTillShutdown : Int) (shutdownReason : UaLocalizedText) (clientCount : Nat)
    (w : World) : Option (Int × World) :=
  if w.d.m_isStarted == false then
    -- Error, the server is not started
    some (-1, w)
  else
  let w := { w with d := { w.d with m_isStarted := false } }
  match w.d.m_pServerManager with
  | none => none
  | some sm =>
  let w := w.emit [Event.startServerShutDown sm secondsTillShutdown shutdownReason clientCount]
  let w := w.emit (if clientCount > 0 then [Event.sleep secondsTillShutdown] else [])
  -- Stop UA server module
  let w := { w with d := { w.d with m_pUaModule := none }
                    trace := w.trace ++ stopUaModule w.d.m_pUaModule }
  -- Stop core server module
  let w := { w with d := { w.d with m_pCoreModule := none }
                    trace := w.trace ++ stopCoreModule w.d.m_pCoreModule }
  -- Stop all node managers
  let w := { w with d := { w.d with m_listNodeManagers := [] }
                    trace := w.trace ++ stopNodeManagers w.d.m_listNodeManagers }
  -- Stop server config
  let w := { w with d := { w.d with m_pServerConfig := none }
                    trace := w.trace ++ stopServerConfig w.d.m_pServerConfig }
  some (0, w.emit [Event.closeTrace])

/-! ## The remaining public methods -/

/-- `OpcServer::createCertificate()`; `load` is what `loadConfiguration` returns. -/
def createCertificate (SUPPORT_XML_CONFIG : Bool) (load : UaStatus) (w : World) : Int × World :=
  if w.d.m_isStarted != false then
    (-1, w.emit [Event.stdout " Error, the method is called after the server was already started\n"])
  else
  let w :=
    if w.d.m_pServerConfig == none then
      if SUPPORT_XML_CONFIG && extensionTest (toLower w.d.m_configurationFile) ".xml" then
        { w with d := { w.d with m_pServerConfig := some (ServerConfig.basicXml w.nextId
                          w.d.m_configurationFile w.d.m_applicationPath w.d.m_pOpcServerCallback) }
                 nextId := w.nextId + 1
                 trace := w.trace ++ [Event.newServerConfig (ServerConfig.basicXml w.nextId
                          w.d.m_configurationFile w.d.m_applicationPath w.d.m_pOpcServerCallback)] }
      else w
    else w
  match w.d.m_pServerConfig with
  | none => (-2, w.emit [Event.stdout "Problem opening config file\n"])
  | some cfg =>
    let w := w.emit [Event.loadConfiguration cfg load]
    if load.isGood then (0, w) else (-3, w)

/-- `OpcServer::getDefaultNodeManager()`: `NULL` when not started, else what
`m_pServerManager->getNodeManagerNS1()->getNodeManagerConfig()` gives; `ns1` and
`nmConfig` are the objects the two getters of the live server manager return.  No result
when the server manager pointer is `NULL` in a started server. -/
def getDefaultNodeManager (ns1 nmConfig : Handle) (w : World) :
    Option (Option Handle × World) :=
  if w.d.m_isStarted == false then
    -- Error, the server is not started
    some (none, w)
  else
    match w.d.m_pServerManager with
    | none => none
    | some sm =>
      some (some nmConfig,
        w.emit [Event.getNodeManagerNS1 sm ns1, Event.getNodeManagerConfig ns1 nmConfig])

/-- Lines 119-126: delete every manager of the list. -/
def deleteNodeManagers (l : List Handle) : List Event :=
  l.map Event.deleteNodeManager

/-- Lines 107-117 and 128-132: `delete` of what a pointer holds, nothing when `NULL`. -/
def deleteIfSet {α : Type} (del : α → Event) : Option α → List Event
  | some x => [del x]
  | none => []

/-- Destructor `OpcServer::~OpcServer()`: the calls it makes, `none` when the `stop`
it runs has no result. -/
def destroy (clientCount : Nat) (w : World) : Option World :=
  let stopped : Option World :=
    if w.d.m_isStarted != false then
      (stop 0 ⟨"en", "Application shut down"⟩ clientCount w).map Prod.snd
    else some w
  stopped.map fun w =>
    let w := { w with d := { w.d with m_pUaModule := none }
                      trace := w.trace ++ deleteIfSet Event.deleteUaModule w.d.m_pUaModule }
    let w := { w with d := { w.d with m_pCoreModule := none }
                      trace := w.trace ++ deleteIfSet Event.deleteCoreModule w.d.m_pCoreModule }
    let w := { w with d := { w.d with m_listNodeManagers := [] }
                      trace := w.trace ++ deleteNodeManagers w.d.m_listNodeManagers }
    { w with d := { w.d with m_pServerConfig := none }
             m_quasarCallback := none
             trace := w.trace ++ deleteIfSet Event.deleteServerConfig w.d.m_pServerConfig }

/-! ## States the program can be in -/

/-- Worlds obtained from a newly constructed `OpcServer` by calls of its public methods,
whatever the collaborators return (a server manager that is an object, as `StartOracle`
has it; `ReachableNullable` is without this). -/
inductive Reachable (SUPPORT_XML_CONFIG : Bool) : World → Prop where
  | new : Reachable SUPPORT_XML_CONFIG OpcServer.new
  | setServerConfigFile (configurationFile applicationPath : String) {w : World} :
      Reachable SUPPORT_XML_CONFIG w →
      Reachable SUPPORT_XML_CONFIG (setServerConfigFile configurationFile applicationPath w).2
  | setServerConfig (pServerConfig : Option Handle) {w : World} :
      Reachable SUPPORT_XML_CONFIG w →
      Reachable SUPPORT_XML_CONFIG (setServerConfig pServerConfig w).2
  | setCallback (pOpcServerCallback : Option Handle) {w : World} :
      Reachable SUPPORT_XML_CONFIG w →
      Reachable SUPPORT_XML_CONFIG (setCallback pOpcServerCallback w).2
  | addNodeManager (pNodeManager : Handle) (ret : UaStatus) {w : World} :
      Reachable SUPPORT_XML_CONFIG w →
      Reachable SUPPORT_XML_CONFIG (addNodeManager pNodeManager ret w).2
  | createCertificate (load : UaStatus) {w : World} :
      Reachable SUPPORT_XML_CONFIG w →
      Reachable SUPPORT_XML_CONFIG (createCertificate SUPPORT_XML_CONFIG load w).2
  | start (o : StartOracle) {w : World} :
      Reachable SUPPORT_XML_CONFIG w →
      Reachable SUPPORT_XML_CONFIG (start SUPPORT_XML_CONFIG o w).2
  | stop (secondsTillShutdown : Int) (shutdownReason : UaLocalizedText) (clientCount : Nat)
      {w : World} {r : Int × World} :
      Reachable SUPPORT_XML_CONFIG w →
      stop secondsTillShutdown shutdownReason clientCount w = some r →
      Reachable SUPPORT_XML_CONFIG r.2
  | getDefaultNodeManager (ns1 nmConfig : Handle) {w : World} {r : Option Handle × World} :
      Reachable SUPPORT_XML_CONFIG w →
      getDefaultNodeManager ns1 nmConfig w = some r →
      Reachable SUPPORT_XML_CONFIG r.2

/-- The calls made between world `w` and a later world `w2`. -/
def callsSince (w w2 : World) : List Event :=
  w2.trace.drop w.trace.length

/-- The targets and arguments of the `NodeManager::startUp` calls in a list of calls. -/
def nmStartUpCalls : List Event → List (Handle × Option Handle)
  | [] => []
  | Event.nmStartUp nm sm _ :: rest => (nm, sm) :: nmStartUpCalls rest
  | _ :: rest => nmStartUpCalls rest

/-- Is the call a construction or a use of a `UaModule`? -/
def Event.onUaModule : Event → Bool
  | Event.newUaModule _ => true
  | Event.uaInit _ _ _ _ => true
  | Event.uaStartUp _ _ _ => true
  | Event.uaShutDown _ => true
  | Event.deleteUaModule _ => true
  | _ => false

/-- Is the call a construction or a use of a `CoreModule`? -/
def Event.onCoreModule : Event → Bool
  | Event.newCoreModule _ => true
  | Event.coreInit _ _ => true
  | Event.coreStartUp _ _ _ => true
  | Event.coreGetServerManager _ _ => true
  | Event.coreShutDown _ => true
  | Event.deleteCoreModule _ => true
  | _ => false

/-- Is the call `startUp` of a config object? -/
def Event.isCfgStartUp : Event → Bool
  | Event.cfgStartUp _ _ _ => true
  | _ => false

/-- Is the call `startUp` of a node manager? -/
def Event.isNmStartUp : Event → Bool
  | Event.nmStartUp _ _ _ => true
  | _ => false

/-- Is the call the destruction of a module? -/
def Event.isDeleteModule : Event → Bool
  | Event.deleteUaModule _ => true
  | Event.deleteCoreModule _ => true
  | _ => false

/-- Is the call part of building or loading the configuration and setting up tracing
(lines 295-352)? -/
def Event.isConfigPhase : Event → Bool
  | Event.newServerConfig _ => true
  | Event.loadConfiguration _ _ => true
  | Event.getStackTraceSettings _ => true
  | Event.getServerTraceSettings _ => true
  | Event.getServerInstanceInfo _ => true
  | Event.initTrace _ _ _ _ _ => true
  | Event.setTraceActive => true
  | Event.setStackTraceActive _ => true
  | _ => false

/-- Is the call one that reads the trace settings or switches tracing on (lines 330-350)? -/
def Event.isTraceSetup : Event → Bool
  | Event.getStackTraceSettings _ => true
  | Event.getServerTraceSettings _ => true
  | Event.getServerInstanceInfo _ => true
  | Event.initTrace _ _ _ _ _ => true
  | Event.setTraceActive => true
  | Event.setStackTraceActive _ => true
  | _ => false

/-- The calls of lines 356-374 when `CoreModule::initialize` returns 0; `n` is the
identity of the new `CoreModule`, `n + 1` that of the new `UaModule`. -/
def initCalls (o : StartOracle) (cfg : ServerConfig) (n : Handle) (cb : Option Handle) :
    List Event :=
  [Event.newCoreModule n, Event.coreInit n o.coreInit, Event.newUaModule (n + 1)] ++
    (askUaServer cb o.createUaServer).2 ++
    [Event.uaInit (n + 1) cfg (askUaServer cb o.createUaServer).1 o.uaInit]

/-- The calls of lines 381-416 when both the core module and the config start up. -/
def startUpCalls (o : StartOracle) (cfg : ServerConfig) (n : Handle) (nms : List Handle) :
    List Event :=
  [Event.coreStartUp n cfg o.coreStartUp,
   Event.coreGetServerManager n (some o.getServerManager),
   Event.cfgStartUp cfg (some o.getServerManager) (cfg.startUp o.cfgStartUp)] ++
    startNodeManagers (some o.getServerManager) o.nmStartUp 0 nms ++
    [Event.uaStartUp (n + 1) n o.uaStartUp]

/-- The calls of the rollback at lines 422-435. -/
def rollbackCalls (o : StartOracle) (cfg : ServerConfig) (n : Handle) : List Event :=
  [Event.uaShutDown (n + 1), Event.deleteUaModule (n + 1),
   Event.coreShutDown n, Event.coreGetServerManager n o.getServerManagerAfterShutDown,
   Event.deleteCoreModule n,
   Event.cfgShutDown cfg, Event.deleteServerConfig cfg,
   Event.closeTrace]

/-- An oracle in which every collaborator succeeds; tracing is off. -/
def allGood : StartOracle :=
  { loadConfiguration := OpcUa_Good
    bTraceEnabled := false
    uTraceLevel := 0
    bSdkTraceEnabled := false
    uSdkTraceLevel := 0
    uMaxTraceEntries := 0
    uMaxBackupFiles := 0
    sTraceFile := ""
    sServerUri := ""
    coreInit := 0
    createUaServer := none
    uaInit := 0
    coreStartUp := 0
    getServerManager := 100
    cfgStartUp := OpcUa_Good
    nmStartUp := fun _ => OpcUa_Good
    uaStartUp := 0
    getServerManagerAfterShutDown := none
    endpointUrls := [] }

/-- A new server whose configuration file name is the one-letter string `a`. -/
def shortPathWorld : World :=
  (setServerConfigFile "a" "" OpcServer.new).2

/-- A new server with the file name of the scenario of the specification. -/
def unknownExtWorld : World :=
  (setServerConfigFile "bad.unknownext" "" OpcServer.new).2

/-- A new server given a config object of the application (object 7) and two node
managers (objects 10 and 11). -/
def applicationConfigWorld : World :=
  (addNodeManager 11 OpcUa_Good
    (addNodeManager 10 OpcUa_Good (setServerConfig (some 7) OpcServer.new).2).2).2

def loadFails : StartOracle := { allGood with loadConfiguration := OpcUa_Bad }

def coreInitFails : StartOracle := { allGood with coreInit := -5 }

def uaInitFails : StartOracle := { allGood with uaInit := -6 }

def coreStartUpFails : StartOracle := { allGood with coreStartUp := -8 }

def cfgStartUpFails : StartOracle := { allGood with cfgStartUp := OpcUa_Bad }

def uaStartUpFails : StartOracle := { allGood with uaStartUp := -7 }

def secondManagerFails : StartOracle :=
  { allGood with nmStartUp := fun i => if i = 1 then OpcUa_Bad else OpcUa_Good }

/-- Every handle a started server uses is set. -/
def Wired (w : World) : Prop :=
  w.d.m_isStarted = true →
    w.d.m_pServerManager ≠ none ∧ w.d.m_pServerConfig ≠ none ∧
    w.d.m_pCoreModule ≠ none ∧ w.d.m_pUaModule ≠ none

/-- A started world with two registered managers, used to exercise the guards. -/
def runningWorld : World :=
  { d := { m_isStarted := true
           m_configurationFile := "ServerConfig.ini"
           m_applicationPath := "/opt/server"
           m_pServerConfig := some (ServerConfig.basicIni 1 "ServerConfig.ini" "/opt/server" (some 0))
           m_pServerManager := some 100
           m_pCoreModule := some 2
           m_pUaModule := some 3
           m_pOpcServerCallback := some 0
           m_listNodeManagers := [10, 11] }
    m_logFilePath := ""
    m_quasarCallback := some 0
    nextId := 4
    trace := [] }

/-! ## The two config adapters of the file -/

/-- The kinds of user identity token (`OpcUa_UserTokenType`). -/
inductive UserTokenType where
  | Anonymous
  | UserName
  | Certificate
  | IssuedToken
deriving DecidableEq, Repr

/-- What `createSession` returns: the pointer the callback gave, or a new `UaSession`
built from the two arguments. -/
inductive SessionResult where
  | fromCallback (pSession : Option Handle)
  | newUaSession (sessionID : Int) (authenticationToken : Nat)
deriving DecidableEq, Repr

/-- Calls made by the methods of a config adapter. -/
inductive AdapterCall where
  | getUserIdentityTokenConfig
  | callbackCreateSession (cb : Handle) (sessionID : Int) (authenticationToken : Nat)
  | callbackLogonSessionUser (cb : Handle) (pSession : Option Handle)
      (tokenType : UserTokenType)
deriving DecidableEq, Repr

/-- `ServerConfigBasicIni::createSession` (lines 562-572); `cbSession` is what the
callback returns if it is asked. -/
def ServerConfigBasicIni.createSession (m_pOpcServerCallback : Option Handle)
    (cbSession : Option Handle) (sessionID : Int) (authenticationToken : Nat) :
    SessionResult × List AdapterCall :=
  match m_pOpcServerCallback with
  | some cb =>
    (SessionResult.fromCallback cbSession,
      [AdapterCall.callbackCreateSession cb sessionID authenticationToken])
  | none => (SessionResult.newUaSession sessionID authenticationToken, [])

/-- `ServerConfigBasicIni::logonSessionUser` (lines 579-620); the two booleans are what
`getUserIdentityTokenConfig` writes, `cbRet` is what the callback returns if it is asked. -/
def ServerConfigBasicIni.logonSessionUser (m_pOpcServerCallback : Option Handle)
    (bEnableAnonymous bEnableUserPw : Bool) (cbRet : UaStatus)
    (pSession : Option Handle) (tokenType : UserTokenType) : UaStatus × List AdapterCall :=
  -- Get the settings for user identity tokens to support
  let calls := [AdapterCall.getUserIdentityTokenConfig]
  if tokenType == UserTokenType.Anonymous then
    if bEnableAnonymous == false then (OpcUa_Bad, calls) else (OpcUa_Good, calls)
  else if tokenType == UserTokenType.UserName then
    if bEnableUserPw == false then (OpcUa_Bad, calls)
    else
      match m_pOpcServerCallback with
      | some cb =>
        (cbRet, calls ++ [AdapterCall.callbackLogonSessionUser cb pSession tokenType])
      | none => (OpcUa_Bad, calls)
  else (OpcUa_Bad, calls)

/-- `ServerConfigBasicXml::createSession` (lines 638-648). -/
def ServerConfigBasicXml.createSession (m_pOpcServerCallback : Option Handle)
    (cbSession : Option Handle) (sessionID : Int) (authenticationToken : Nat) :
    SessionResult × List AdapterCall :=
  match m_pOpcServerCallback with
  | some cb =>
    (SessionResult.fromCallback cbSession,
      [AdapterCall.callbackCreateSession cb sessionID authenticationToken])
  | none => (SessionResult.newUaSession sessionID authenticationToken, [])

/-- `ServerConfigBasicXml::logonSessionUser` (lines 655-696). -/
def ServerConfigBasicXml.logonSessionUser (m_pOpcServerCallback : Option Handle)
    (bEnableAnonymous bEnableUserPw : Bool) (cbRet : UaStatus)
    (pSession : Option Handle) (tokenType : UserTokenType) : UaStatus × List AdapterCall :=
  -- Get the settings for user identity tokens to support
  let calls := [AdapterCall.getUserIdentityTokenConfig]
  if tokenType == UserTokenType.Anonymous then
    if bEnableAnonymous == false then (OpcUa_Bad, calls) else (OpcUa_Good, calls)
  else if tokenType == UserTokenType.UserName then
    if bEnableUserPw == false then (OpcUa_Bad, calls)
    else
      match m_pOpcServerCallback with
      | some cb =>
        (cbRet, calls ++ [AdapterCall.callbackLogonSessionUser cb pSession tokenType])
      | none => (OpcUa_Bad, calls)
  else (OpcUa_Bad, calls)

/-- Is the call one made on the callback? -/
def AdapterCall.onCallback : AdapterCall → Bool
  | AdapterCall.getUserIdentityTokenConfig => false
  | AdapterCall.callbackCreateSession _ _ _ => true
  | AdapterCall.callbackLogonSessionUser _ _ _ => true

/-- The decision table of the specification (4.3): anonymous tokens are accepted iff
anonymous logon is allowed; username tokens are rejected if that mode is off, else
forwarded to the callback, and rejected if there is none; any other kind is rejected. -/
def logonDecision (anonymousAllowed userPwAllowed : Bool) (callback : Option UaStatus) :
    UserTokenType → UaStatus
  | UserTokenType.Anonymous => if anonymousAllowed then OpcUa_Good else OpcUa_Bad
  | UserTokenType.UserName =>
    if userPwAllowed then
      match callback with
      | some r => r
      | none => OpcUa_Bad
    else OpcUa_Bad
  | _ => OpcUa_Bad

/-! ## Readings of the trace -/

/-- Is the call one of the steps of the start sequence: load, the two `initialize`, the
four kinds of `startUp`, the endpoint enumeration? -/
def Event.isLifecycleStep : Event → Bool
  | Event.loadConfiguration _ _ => true
  | Event.coreInit _ _ => true
  | Event.uaInit _ _ _ _ => true
  | Event.coreStartUp _ _ _ => true
  | Event.cfgStartUp _ _ _ => true
  | Event.nmStartUp _ _ _ => true
  | Event.uaStartUp _ _ _ => true
  | Event.getEndpointConfiguration _ => true
  | _ => false

/-- The components `start` starts up and `stop` shuts down. -/
inductive Component where
  | coreModule (core : Handle)
  | serverConfig (cfg : ServerConfig)
  | nodeManager (nm : Handle)
  | uaModule (ua : Handle)
deriving DecidableEq, Repr

/-- The component a `startUp` call is made on. -/
def Event.startedComponent : Event → Option Component
  | Event.coreStartUp core _ _ => some (Component.coreModule core)
  | Event.cfgStartUp cfg _ _ => some (Component.serverConfig cfg)
  | Event.nmStartUp nm _ _ => some (Component.nodeManager nm)
  | Event.uaStartUp ua _ _ => some (Component.uaModule ua)
  | _ => none

/-- The component a `shutDown` call is made on. -/
def Event.shutDownComponent : Event → Option Component
  | Event.coreShutDown core => some (Component.coreModule core)
  | Event.cfgShutDown cfg => some (Component.serverConfig cfg)
  | Event.nmShutDown nm => some (Component.nodeManager nm)
  | Event.uaShutDown ua => some (Component.uaModule ua)
  | _ => none

/-- The components started, in the order of the `startUp` calls. -/
def startUpOrder (calls : List Event) : List Component :=
  calls.filterMap Event.startedComponent

/-- The components shut down, in the order of the `shutDown` calls. -/
def shutDownOrder (calls : List Event) : List Component :=
  calls.filterMap Event.shutDownComponent

/-- Is the call `UaThread::sleep`? -/
def Event.isSleep : Event → Bool
  | Event.sleep _ => true
  | _ => false

/-- The world `stop` leaves (the world itself when `stop` has no result). -/
def afterStop (secondsTillShutdown : Int) (shutdownReason : UaLocalizedText)
    (clientCount : Nat) (w : World) : World :=
  match stop secondsTillShutdown shutdownReason clientCount w with
  | some r => r.2
  | none => w

/-- The server of `applicationConfigWorld` after a `start` in which everything succeeds. -/
def startedWorld : World :=
  (start false allGood applicationConfigWorld).2

/-- A new server given the file name `ServerConfig.ini` and one node manager. -/
def iniPathWorld : World :=
  (addNodeManager 10 OpcUa_Good
    (setServerConfigFile "ServerConfig.ini" "/opt/server" OpcServer.new).2).2

/-- The component a `delete` is made on. -/
def Event.deletedComponent : Event → Option Component
  | Event.deleteCoreModule core => some (Component.coreModule core)
  | Event.deleteServerConfig cfg => some (Component.serverConfig cfg)
  | Event.deleteNodeManager nm => some (Component.nodeManager nm)
  | Event.deleteUaModule ua => some (Component.uaModule ua)
  | _ => none

/-- The components deleted, in the order of the `delete` calls. -/
def deleteOrder (calls : List Event) : List Component :=
  calls.filterMap Event.deletedComponent

/-- The objects the server owns through its pointers and its list, in the order the
destructor visits them. -/
def ownedComponents (d : OpcServerPrivate) : List Component :=
  d.m_pUaModule.toList.map Component.uaModule ++
    d.m_pCoreModule.toList.map Component.coreModule ++
    d.m_listNodeManagers.map Component.nodeManager ++
    d.m_pServerConfig.toList.map Component.serverConfig

/-- Is the call `shutDown` of a node manager? -/
def Event.isNmShutDown : Event → Bool
  | Event.nmShutDown _ => true
  | _ => false

/-- The server of `applicationConfigWorld` after a `start` that fails at
`UaModule::startUp`. -/
def rolledBackWorld : World :=
  (start false uaStartUpFails applicationConfigWorld).2

/-! ## All the calls of a successful `start` -/

/-- The calls of lines 295-310: the construction of the default config object, when the
application gave none and the file name selects an adapter. -/
def defaultConfigCalls (SUPPORT_XML_CONFIG : Bool) (w : World) : List Event :=
  if w.d.m_pServerConfig == none then
    match defaultConfig SUPPORT_XML_CONFIG w.nextId w.d with
    | some cfg => [Event.newServerConfig cfg]
    | none => []
  else []

/-- The calls of lines 319-352: `loadConfiguration` and, after a good load, the two
getters of the trace settings and the calls that switch tracing on. -/
def traceSettingsCalls (o : StartOracle) (cfg : ServerConfig) : List Event :=
  Event.loadConfiguration cfg o.loadConfiguration ::
    (if o.loadConfiguration.isGood then
      [Event.getStackTraceSettings cfg, Event.getServerTraceSettings cfg] ++
        (if o.bSdkTraceEnabled != false then
          [Event.getServerInstanceInfo cfg,
           Event.initTrace o.uSdkTraceLevel o.uMaxTraceEntries o.uMaxBackupFiles o.sTraceFile
             o.sServerUri,
           Event.setTraceActive] ++
            (if o.bTraceEnabled != false then [Event.setStackTraceActive o.uTraceLevel] else [])
        else [])
    else [])

/-- An oracle in which every collaborator succeeds, tracing is switched on and one
endpoint is open. -/
def tracingOn : StartOracle :=
  { allGood with bSdkTraceEnabled := true
                 bTraceEnabled := true
                 uTraceLevel := 3
                 uSdkTraceLevel := 2
                 sTraceFile := "srv.log"
                 sServerUri := "urn:srv"
                 endpointUrls := ["opc.tcp://host:4841"] }

/-! ## `start` with the server manager pointer as the source types it -/

/-- Lines 356-460 as in `startModules`, with the result of `getServerManager()` at line
392 as the source types it: a `ServerManager*`, stored without a test, that may be
`NULL`.  `sm` is that pointer; the field `getServerManager` of the oracle is not read. -/
def startModulesNullable (sm : Option Handle) (o : StartOracle) (cfg : ServerConfig)
    (w : World) : Int × World :=
  -- Create and initialize core server module
  let core := w.nextId
  let w := { w with d := { w.d with m_pCoreModule := some core }
                    nextId := w.nextId + 1
                    trace := w.trace ++ [Event.newCoreModule core, Event.coreInit core o.coreInit] }
  if 0 ≠ o.coreInit then
    (o.coreInit, w.emit [Event.closeTrace])
  else
  -- Create and initialize UA server module
  let ua := w.nextId
  let w := { w with d := { w.d with m_pUaModule := some ua }
                    nextId := w.nextId + 1
                    trace := w.trace ++ [Event.newUaModule ua] }
  let pUaServer := (askUaServer w.d.m_pOpcServerCallback o.createUaServer).1
  let w := w.emit (askUaServer w.d.m_pOpcServerCallback o.createUaServer).2
  let w := w.emit [Event.uaInit ua cfg pUaServer o.uaInit]
  if 0 ≠ o.uaInit then
    (o.uaInit, w.emit [Event.closeTrace])
  else
  -- Start core server module
  let w := w.emit [Event.coreStartUp core cfg o.coreStartUp]
  if 0 ≠ o.coreStartUp then
    (o.coreStartUp, w.emit [Event.closeTrace])
  else
  let uaStatus := cfg.startUp o.cfgStartUp
  let w := { w with d := { w.d with m_pServerManager := sm }
                    trace := w.trace ++ [Event.coreGetServerManager core sm,
                                         Event.cfgStartUp cfg sm uaStatus] }
  if uaStatus.isNotGood then
    (-1, w.emit [Event.coreShutDown core, Event.closeTrace])
  else
  -- Start NodeManagers
  let w := w.emit (startNodeManagers sm o.nmStartUp 0 w.d.m_listNodeManagers)
  -- Start UA server module
  let w := w.emit [Event.uaStartUp ua core o.uaStartUp]
  if 0 ≠ o.uaStartUp then
    let w := { w with d := { w.d with m_pUaModule := none }
                      trace := w.trace ++ [Event.uaShutDown ua, Event.deleteUaModule ua] }
    let w := { w with d := { w.d with m_pServerManager := o.getServerManagerAfterShutDown
                                      m_pCoreModule := none }
                      trace := w.trace ++ [Event.coreShutDown core,
                        Event.coreGetServerManager core o.getServerManagerAfterShutDown,
                        Event.deleteCoreModule core] }
    let w := { w with d := { w.d with m_pServerConfig := none }
                      trace := w.trace ++ [Event.cfgShutDown cfg, Event.deleteServerConfig cfg] }
    (o.uaStartUp, w.emit [Event.closeTrace])
  else
  let w := w.emit (printEndpoints cfg o.endpointUrls)
  let w := { w with d := { w.d with m_isStarted := true } }
  (0, w)

/-- `OpcServer::start()` as in `start`, over `startModulesNullable`. -/
def startNullable (sm : Option Handle) (SUPPORT_XML_CONFIG : Bool) (o : StartOracle)
    (w : World) : Int × World :=
  if w.d.m_isStarted != false then
    -- Error, the method is called after the server was already started
    (-1, w)
  else
  -- Create default configuration object if not provided by the application
  let w := createDefaultConfig SUPPORT_XML_CONFIG w
  match w.d.m_pServerConfig with
  | none =>
    -- We have no configuration
    (-1, w.emit [Event.stdout noConfigurationMessage])
  | some cfg =>
    -- Check trace settings
    startModulesNullable sm o cfg (checkTraceSettings o cfg w)

theorem createDefaultConfig_isStarted (x : Bool) (w : World) :
    (createDefaultConfig x w).d.m_isStarted = w.d.m_isStarted := by
  unfold createDefaultConfig
  split_ifs
  · split <;> rfl
  · rfl

theorem checkTraceSettings_d (o : StartOracle) (cfg : ServerConfig) (w : World) :
    (checkTraceSettings o cfg w).d = w.d := by
  unfold checkTraceSettings
  simp only [World.emit]
  split_ifs <;> rfl

theorem startModules_wired (o : StartOracle) (cfg : ServerConfig) (w : World)
    (hs : w.d.m_isStarted = false) (hc : w.d.m_pServerConfig = some cfg) :
    Wired (startModules o cfg w).2 := by
  unfold Wired startModules
  simp only [World.emit]
  split_ifs <;> simp [hs, hc]

theorem start_wired (x : Bool) (o : StartOracle) (w : World) (h : Wired w) :
    Wired (start x o w).2 := by
  unfold start
  by_cases hs : w.d.m_isStarted = true
  · simp [hs, h]
  · have hs2 : w.d.m_isStarted = false := by simpa using hs
    simp only [hs2, bne_self_eq_false, Bool.false_eq_true, if_false]
    split
    · rename_i hn
      intro hstart
      simp [World.emit, createDefaultConfig_isStarted, hs2] at hstart
    · rename_i cfg hcfg
      apply startModules_wired
      · rw [checkTraceSettings_d, createDefaultConfig_isStarted, hs2]
      · rw [checkTraceSettings_d, hcfg]

theorem stop_isStarted (secs : Int) (reason : UaLocalizedText) (n : Nat) (w : World)
    (r : Int × World) (h : stop secs reason n w = some r) : r.2.d.m_isStarted = false := by
  unfold stop at h
  by_cases hs : w.d.m_isStarted = true
  · simp only [hs, World.emit] at h
    cases hsm : w.d.m_pServerManager with
    | none => simp [hsm] at h
    | some sm =>
      simp [hsm] at h
      subst h
      rfl
  · have hs2 : w.d.m_isStarted = false := by simpa using hs
    simp [hs2] at h
    subst h
    exact hs2

theorem getDefaultNodeManager_d (ns1 nmConfig : Handle) (w : World)
    (r : Option Handle × World) (h : getDefaultNodeManager ns1 nmConfig w = some r) :
    r.2.d = w.d := by
  unfold getDefaultNodeManager at h
  split_ifs at h
  · have h2 := Option.some.inj h
    subst h2
    rfl
  · cases hsm : w.d.m_pServerManager with
    | none => simp [hsm] at h
    | some sm =>
      simp only [hsm] at h
      have h2 := Option.some.inj h
      subst h2
      rfl

theorem reachable_wired (x : Bool) (w : World) (h : Reachable x w) : Wired w := by
  induction h with
  | new => intro hs; simp [OpcServer.new, setCallback, OpcServerPrivate.new, World.setD] at hs
  | setServerConfigFile f a _ ih =>
    intro hs
    unfold OpcServerModel.setServerConfigFile at hs ⊢
    split_ifs at hs ⊢ with hc
    · exact ih hs
    · simp [World.setD] at hs hc
      simp [hs] at hc
  | setServerConfig p _ ih =>
    intro hs
    unfold OpcServerModel.setServerConfig at hs ⊢
    split_ifs at hs ⊢ with hc
    · exact ih hs
    · simp [World.setD] at hs hc
      simp [hs] at hc
  | setCallback p _ ih =>
    intro hs
    unfold OpcServerModel.setCallback at hs ⊢
    split_ifs at hs ⊢ with hc
    · exact ih hs
    · simp [World.setD] at hs hc
      simp [hs] at hc
  | addNodeManager nm ret _ ih =>
    intro hs
    unfold OpcServerModel.addNodeManager at hs ⊢
    simp only [World.setD, World.emit] at hs ⊢
    split_ifs at hs ⊢ <;> exact ih hs
  | createCertificate load _ ih =>
    rename_i w0 _
    intro hs
    by_cases h0 : w0.d.m_isStarted = true
    · have : (createCertificate x load w0).2.d = w0.d := by
        simp [OpcServerModel.createCertificate, h0, World.emit]
      rw [this] at hs ⊢
      exact ih hs
    · exfalso
      have h1 : w0.d.m_isStarted = false := by simpa using h0
      revert hs
      unfold OpcServerModel.createCertificate
      simp only [h1, World.emit]
      simp
      split <;> split_ifs <;> simp_all
  | start o _ ih => exact start_wired x o _ ih
  | stop secs reason n _ hst _ =>
    intro hs
    rw [stop_isStarted secs reason n _ _ hst] at hs
    exact absurd hs (by simp)
  | getDefaultNodeManager ns1 nmConfig _ hg ih =>
    intro hs
    rw [getDefaultNodeManager_d ns1 nmConfig _ _ hg] at hs ⊢
    exact ih hs

/-! ## Guards of the public methods -/

/-- C1: in every world whose started flag is set, `start` returns -1 and the world it
leaves is the one it found: no field of the private state, no allocation and no call on
a collaborator (the trace) differs. -/
theorem start_when_started (x : Bool) (o : StartOracle) (w : World)
    (h : w.d.m_isStarted = true) : start x o w = (-1, w) := by
  simp [start, h]

theorem start_when_started_witness :
    runningWorld.d.m_isStarted = true ∧ start false allGood runningWorld = (-1, runningWorld) :=
  ⟨rfl, start_when_started false allGood runningWorld rfl⟩

/-- C2: `stop` on a world that is not started returns -1 and leaves the world as it was
(no field changes, no call is recorded).  On a started world whose server manager
pointer is set, `stop` returns 0 and the started flag is false afterwards, whatever
client count the server manager reports; and the pointer is set in every started world
the public methods can produce. -/
theorem stop_guard (x : Bool) (secs : Int) (reason : UaLocalizedText) (n : Nat) (w : World) :
    (w.d.m_isStarted = false → stop secs reason n w = some (-1, w)) ∧
    (w.d.m_isStarted = true → w.d.m_pServerManager ≠ none →
      ∃ w2, stop secs reason n w = some (0, w2) ∧ w2.d.m_isStarted = false) ∧
    (Reachable x w → w.d.m_isStarted = true → w.d.m_pServerManager ≠ none) := by
  refine ⟨?_, ?_, ?_⟩
  · intro h
    simp [stop, h]
  · intro h hsm
    obtain ⟨sm, hsm2⟩ := Option.ne_none_iff_exists'.mp hsm
    simp [stop, h, hsm2, World.emit]
  · intro hr hs
    exact (reachable_wired x w hr hs).1

theorem stop_guard_witness :
    OpcServer.new.d.m_isStarted = false ∧
    stop 5 ⟨"en", "maintenance"⟩ 1 OpcServer.new = some (-1, OpcServer.new) ∧
    runningWorld.d.m_isStarted = true ∧ runningWorld.d.m_pServerManager ≠ none ∧
    (∃ w2, stop 5 ⟨"en", "maintenance"⟩ 1 runningWorld = some (0, w2) ∧
      w2.d.m_isStarted = false) :=
  ⟨rfl, (stop_guard false 5 ⟨"en", "maintenance"⟩ 1 OpcServer.new).1 rfl, rfl, by decide,
    (stop_guard false 5 ⟨"en", "maintenance"⟩ 1 runningWorld).2.1 rfl (by decide)⟩

/-- C3: each of the three setters returns -1 and leaves the world as it was exactly when
the started flag is set; otherwise it returns 0 and the new world differs from the old
one in the setter's own field(s) only (the two strings, the config pointer, the callback
pointer). -/
theorem setters_guard (f a : String) (p cb : Option Handle) (w : World) :
    ((((setServerConfigFile f a w).1 = -1 ∧ (setServerConfigFile f a w).2 = w) ↔
        w.d.m_isStarted = true) ∧
      (w.d.m_isStarted = false → setServerConfigFile f a w =
        (0, { w with d := { w.d with m_configurationFile := f, m_applicationPath := a } }))) ∧
    ((((setServerConfig p w).1 = -1 ∧ (setServerConfig p w).2 = w) ↔
        w.d.m_isStarted = true) ∧
      (w.d.m_isStarted = false → setServerConfig p w =
        (0, { w with d := { w.d with
                m_pServerConfig := p.map ServerConfig.application } }))) ∧
    ((((setCallback cb w).1 = -1 ∧ (setCallback cb w).2 = w) ↔
        w.d.m_isStarted = true) ∧
      (w.d.m_isStarted = false → setCallback cb w =
        (0, { w with d := { w.d with m_pOpcServerCallback := cb } }))) := by
  cases h : w.d.m_isStarted <;>
    simp [setServerConfigFile, setServerConfig, setCallback, World.setD, h]

theorem setters_guard_witness :
    setServerConfigFile "ServerConfig.ini" "/opt" OpcServer.new =
      (0, { OpcServer.new with d := { OpcServer.new.d with
              m_configurationFile := "ServerConfig.ini", m_applicationPath := "/opt" } }) ∧
    setServerConfig (some 7) OpcServer.new =
      (0, { OpcServer.new with d := { OpcServer.new.d with
              m_pServerConfig := some (ServerConfig.application 7) } }) ∧
    setCallback (some 9) OpcServer.new =
      (0, { OpcServer.new with d := { OpcServer.new.d with
              m_pOpcServerCallback := some 9 } }) :=
  ⟨(setters_guard "ServerConfig.ini" "/opt" (some 7) (some 9) OpcServer.new).1.2 rfl,
   (setters_guard "ServerConfig.ini" "/opt" (some 7) (some 9) OpcServer.new).2.1.2 rfl,
   (setters_guard "ServerConfig.ini" "/opt" (some 7) (some 9) OpcServer.new).2.2.2 rfl⟩

/-! ## `start`, phase by phase -/

theorem callsSince_append (w w2 : World) (es : List Event) (h : w2.trace = w.trace ++ es) :
    callsSince w w2 = es := by
  simp [callsSince, h]

/-- A server that is not started and has a configuration object after lines 295-310
goes on to lines 319-460. -/
theorem start_with_config (x : Bool) (o : StartOracle) (w : World) (cfg : ServerConfig)
    (hs : w.d.m_isStarted = false)
    (hc : (createDefaultConfig x w).d.m_pServerConfig = some cfg) :
    start x o w = startModules o cfg (checkTraceSettings o cfg (createDefaultConfig x w)) := by
  simp [start, hs, hc]

theorem createDefaultConfig_calls (x : Bool) (w : World) :
    ∃ es, (createDefaultConfig x w).trace = w.trace ++ es ∧
      (∀ e ∈ es, e.isConfigPhase = true) ∧
      (createDefaultConfig x w).d =
        { w.d with m_pServerConfig := (createDefaultConfig x w).d.m_pServerConfig } := by
  unfold createDefaultConfig
  split_ifs
  · split
    · exact ⟨_, rfl, by simp [Event.isConfigPhase], rfl⟩
    · exact ⟨[], by simp, by simp, rfl⟩
  · exact ⟨[], by simp, by simp, rfl⟩

theorem checkTraceSettings_calls (o : StartOracle) (cfg : ServerConfig) (w : World) :
    ∃ es, (checkTraceSettings o cfg w).trace = w.trace ++ es ∧
      (∀ e ∈ es, e.isConfigPhase = true) := by
  unfold checkTraceSettings
  simp only [World.emit]
  split_ifs
  all_goals exact ⟨_, by simp only [List.append_assoc]; rfl, by simp [Event.isConfigPhase]⟩

/-- Lines 295-352 change the config pointer, the log file path and the allocation
counter only, and make calls of the configuration phase only. -/
theorem config_phase (x : Bool) (o : StartOracle) (w : World) (cfg : ServerConfig) :
    ∃ es, (checkTraceSettings o cfg (createDefaultConfig x w)).trace = w.trace ++ es ∧
      (∀ e ∈ es, e.isConfigPhase = true) ∧
      (checkTraceSettings o cfg (createDefaultConfig x w)).d =
        { w.d with m_pServerConfig := (createDefaultConfig x w).d.m_pServerConfig } := by
  obtain ⟨es1, h1, p1, d1⟩ := createDefaultConfig_calls x w
  obtain ⟨es2, h2, p2⟩ := checkTraceSettings_calls o cfg (createDefaultConfig x w)
  refine ⟨es1 ++ es2, ?_, ?_, ?_⟩
  · rw [h2, h1, List.append_assoc]
  · intro e he
    rcases List.mem_append.mp he with h | h
    · exact p1 e h
    · exact p2 e h
  · rw [checkTraceSettings_d]
    exact d1

theorem startModules_coreInit_fails (o : StartOracle) (cfg : ServerConfig) (w : World)
    (h : o.coreInit ≠ 0) :
    startModules o cfg w =
      (o.coreInit,
        { w with d := { w.d with m_pCoreModule := some w.nextId }
                 nextId := w.nextId + 1
                 trace := w.trace ++ [Event.newCoreModule w.nextId,
                   Event.coreInit w.nextId o.coreInit, Event.closeTrace] }) := by
  simp [startModules, World.emit, Ne.symm h]


theorem startModules_uaInit_fails (o : StartOracle) (cfg : ServerConfig) (w : World)
    (h1 : o.coreInit = 0) (h2 : o.uaInit ≠ 0) :
    startModules o cfg w =
      (o.uaInit,
        { w with d := { w.d with m_pCoreModule := some w.nextId
                                 m_pUaModule := some (w.nextId + 1) }
                 nextId := w.nextId + 2
                 trace := w.trace ++ (initCalls o cfg w.nextId w.d.m_pOpcServerCallback ++
                   [Event.closeTrace]) }) := by
  simp [startModules, World.emit, initCalls, h1, Ne.symm h2]

theorem startModules_coreStartUp_fails (o : StartOracle) (cfg : ServerConfig) (w : World)
    (h1 : o.coreInit = 0) (h2 : o.uaInit = 0) (h3 : o.coreStartUp ≠ 0) :
    startModules o cfg w =
      (o.coreStartUp,
        { w with d := { w.d with m_pCoreModule := some w.nextId
                                 m_pUaModule := some (w.nextId + 1) }
                 nextId := w.nextId + 2
                 trace := w.trace ++ (initCalls o cfg w.nextId w.d.m_pOpcServerCallback ++
                   [Event.coreStartUp w.nextId cfg o.coreStartUp, Event.closeTrace]) }) := by
  simp [startModules, World.emit, initCalls, h1, h2, Ne.symm h3]

theorem startModules_cfgStartUp_fails (o : StartOracle) (cfg : ServerConfig) (w : World)
    (h1 : o.coreInit = 0) (h2 : o.uaInit = 0) (h3 : o.coreStartUp = 0)
    (h4 : (cfg.startUp o.cfgStartUp).isNotGood = true) :
    startModules o cfg w =
      (-1,
        { w with d := { w.d with m_pCoreModule := some w.nextId
                                 m_pUaModule := some (w.nextId + 1)
                                 m_pServerManager := some o.getServerManager }
                 nextId := w.nextId + 2
                 trace := w.trace ++ (initCalls o cfg w.nextId w.d.m_pOpcServerCallback ++
                   [Event.coreStartUp w.nextId cfg o.coreStartUp,
                    Event.coreGetServerManager w.nextId (some o.getServerManager),
                    Event.cfgStartUp cfg (some o.getServerManager) (cfg.startUp o.cfgStartUp),
                    Event.coreShutDown w.nextId, Event.closeTrace]) }) := by
  simp [startModules, World.emit, initCalls, h1, h2, h3, h4]

theorem startModules_uaStartUp_fails (o : StartOracle) (cfg : ServerConfig) (w : World)
    (h1 : o.coreInit = 0) (h2 : o.uaInit = 0) (h3 : o.coreStartUp = 0)
    (h4 : (cfg.startUp o.cfgStartUp).isNotGood = false) (h5 : o.uaStartUp ≠ 0) :
    startModules o cfg w =
      (o.uaStartUp,
        { w with d := { w.d with m_pCoreModule := none
                                 m_pUaModule := none
                                 m_pServerConfig := none
                                 m_pServerManager := o.getServerManagerAfterShutDown }
                 nextId := w.nextId + 2
                 trace := w.trace ++ (initCalls o cfg w.nextId w.d.m_pOpcServerCallback ++
                   startUpCalls o cfg w.nextId w.d.m_listNodeManagers ++
                   rollbackCalls o cfg w.nextId) }) := by
  simp [startModules, World.emit, initCalls, startUpCalls, rollbackCalls, h1, h2, h3, h4,
    Ne.symm h5]

theorem startModules_succeeds (o : StartOracle) (cfg : ServerConfig) (w : World)
    (h1 : o.coreInit = 0) (h2 : o.uaInit = 0) (h3 : o.coreStartUp = 0)
    (h4 : (cfg.startUp o.cfgStartUp).isNotGood = false) (h5 : o.uaStartUp = 0) :
    startModules o cfg w =
      (0,
        { w with d := { w.d with m_pCoreModule := some w.nextId
                                 m_pUaModule := some (w.nextId + 1)
                                 m_pServerManager := some o.getServerManager
                                 m_isStarted := true }
                 nextId := w.nextId + 2
                 trace := w.trace ++ (initCalls o cfg w.nextId w.d.m_pOpcServerCallback ++
                   startUpCalls o cfg w.nextId w.d.m_listNodeManagers ++
                   printEndpoints cfg o.endpointUrls) }) := by
  simp [startModules, World.emit, initCalls, startUpCalls, h1, h2, h3, h4, h5]

theorem startNodeManagers_not_config (sm : Option Handle) (ret : Nat → UaStatus)
    (l : List Handle) (i : Nat) :
    (startNodeManagers sm ret i l).all (fun e => !e.isConfigPhase) = true := by
  induction l generalizing i with
  | nil => rfl
  | cons nm rest ih =>
    simp only [startNodeManagers, List.all_cons, ih, Bool.and_true]
    rfl

theorem printEndpoints_not_config (cfg : ServerConfig) (urls : List String) :
    (printEndpoints cfg urls).all (fun e => !e.isConfigPhase) = true := by
  unfold printEndpoints
  split_ifs
  · simp only [List.all_cons, List.all_append, List.all_map, List.all_nil, Bool.and_true]
    simp [Event.isConfigPhase]
  · rfl

/-- What `initCalls` holds after its first two calls. -/
theorem initCalls_eq (o : StartOracle) (cfg : ServerConfig) (n : Handle)
    (cb : Option Handle) :
    ∃ es, initCalls o cfg n cb = Event.newCoreModule n :: Event.coreInit n o.coreInit :: es ∧
      es.all (fun e => !e.isConfigPhase) = true := by
  cases cb
  · exact ⟨_, rfl, rfl⟩
  · exact ⟨_, rfl, rfl⟩

theorem startUpCalls_not_config (o : StartOracle) (cfg : ServerConfig) (n : Handle)
    (nms : List Handle) :
    (startUpCalls o cfg n nms).all (fun e => !e.isConfigPhase) = true := by
  simp only [startUpCalls, List.all_append, List.all_cons, List.all_nil,
    startNodeManagers_not_config, Bool.and_true]
  rfl

theorem rollbackCalls_not_config (o : StartOracle) (cfg : ServerConfig) (n : Handle) :
    (rollbackCalls o cfg n).all (fun e => !e.isConfigPhase) = true := by
  rfl

/-- Lines 356-460 always construct and initialise a `CoreModule` first, and make no call
of the configuration phase. -/
theorem startModules_calls (o : StartOracle) (cfg : ServerConfig) (w : World) :
    ∃ es, (startModules o cfg w).2.trace =
        w.trace ++ (Event.newCoreModule w.nextId :: Event.coreInit w.nextId o.coreInit :: es) ∧
      es.all (fun e => !e.isConfigPhase) = true := by
  by_cases h1 : o.coreInit = 0
  swap
  · rw [startModules_coreInit_fails o cfg w h1]
    exact ⟨[Event.closeTrace], rfl, rfl⟩
  obtain ⟨es0, he0, hp0⟩ := initCalls_eq o cfg w.nextId w.d.m_pOpcServerCallback
  by_cases h2 : o.uaInit = 0
  swap
  · rw [startModules_uaInit_fails o cfg w h1 h2, he0]
    exact ⟨es0 ++ [Event.closeTrace], by simp, by simp only [List.all_append, hp0]; rfl⟩
  by_cases h3 : o.coreStartUp = 0
  swap
  · rw [startModules_coreStartUp_fails o cfg w h1 h2 h3, he0]
    exact ⟨es0 ++ [Event.coreStartUp w.nextId cfg o.coreStartUp, Event.closeTrace],
      by simp, by simp only [List.all_append, hp0]; rfl⟩
  cases h4 : (cfg.startUp o.cfgStartUp).isNotGood
  swap
  · rw [startModules_cfgStartUp_fails o cfg w h1 h2 h3 h4, he0]
    exact ⟨es0 ++ [Event.coreStartUp w.nextId cfg o.coreStartUp,
        Event.coreGetServerManager w.nextId (some o.getServerManager),
        Event.cfgStartUp cfg (some o.getServerManager) (cfg.startUp o.cfgStartUp),
        Event.coreShutDown w.nextId, Event.closeTrace],
      by simp, by simp only [List.all_append, hp0]; rfl⟩
  by_cases h5 : o.uaStartUp = 0
  swap
  · rw [startModules_uaStartUp_fails o cfg w h1 h2 h3 h4 h5, he0]
    exact ⟨es0 ++ (startUpCalls o cfg w.nextId w.d.m_listNodeManagers ++
      rollbackCalls o cfg w.nextId), by simp,
      by simp only [List.all_append, hp0, startUpCalls_not_config, rollbackCalls_not_config]; rfl⟩
  · rw [startModules_succeeds o cfg w h1 h2 h3 h4 h5, he0]
    exact ⟨es0 ++ (startUpCalls o cfg w.nextId w.d.m_listNodeManagers ++
      printEndpoints cfg o.endpointUrls), by simp,
      by simp only [List.all_append, hp0, startUpCalls_not_config, printEndpoints_not_config]; rfl⟩

/-- `startModules` returns 0 exactly when the five fatal steps succeed. -/
theorem startModules_ret_zero_iff (o : StartOracle) (cfg : ServerConfig) (w : World) :
    (startModules o cfg w).1 = 0 ↔
      (o.coreInit = 0 ∧ o.uaInit = 0 ∧ o.coreStartUp = 0 ∧
        (cfg.startUp o.cfgStartUp).isNotGood = false ∧ o.uaStartUp = 0) := by
  by_cases h1 : o.coreInit = 0
  swap
  · rw [startModules_coreInit_fails o cfg w h1]; simp [h1]
  by_cases h2 : o.uaInit = 0
  swap
  · rw [startModules_uaInit_fails o cfg w h1 h2]; simp [h1, h2]
  by_cases h3 : o.coreStartUp = 0
  swap
  · rw [startModules_coreStartUp_fails o cfg w h1 h2 h3]; simp [h1, h2, h3]
  cases h4 : (cfg.startUp o.cfgStartUp).isNotGood
  swap
  · rw [startModules_cfgStartUp_fails o cfg w h1 h2 h3 h4]; simp [h1, h2, h3]
  by_cases h5 : o.uaStartUp = 0
  swap
  · rw [startModules_uaStartUp_fails o cfg w h1 h2 h3 h4 h5]; simp [h1, h2, h3, h5]
  · rw [startModules_succeeds o cfg w h1 h2 h3 h4 h5]; simp [h1, h2, h3, h5]

/-- From a world that is not started, `startModules` sets the flag exactly when the
five fatal steps succeed. -/
theorem startModules_started_iff (o : StartOracle) (cfg : ServerConfig) (w : World)
    (hs : w.d.m_isStarted = false) :
    (startModules o cfg w).2.d.m_isStarted = true ↔
      (o.coreInit = 0 ∧ o.uaInit = 0 ∧ o.coreStartUp = 0 ∧
        (cfg.startUp o.cfgStartUp).isNotGood = false ∧ o.uaStartUp = 0) := by
  by_cases h1 : o.coreInit = 0
  swap
  · rw [startModules_coreInit_fails o cfg w h1]; simp [h1, hs]
  by_cases h2 : o.uaInit = 0
  swap
  · rw [startModules_uaInit_fails o cfg w h1 h2]; simp [h1, h2, hs]
  by_cases h3 : o.coreStartUp = 0
  swap
  · rw [startModules_coreStartUp_fails o cfg w h1 h2 h3]; simp [h1, h2, h3, hs]
  cases h4 : (cfg.startUp o.cfgStartUp).isNotGood
  swap
  · rw [startModules_cfgStartUp_fails o cfg w h1 h2 h3 h4]; simp [h1, h2, h3, hs]
  by_cases h5 : o.uaStartUp = 0
  swap
  · rw [startModules_uaStartUp_fails o cfg w h1 h2 h3 h4 h5]; simp [h1, h2, h3, h5, hs]
  · rw [startModules_succeeds o cfg w h1 h2 h3 h4 h5]; simp [h1, h2, h3, h5]


theorem checkTraceSettings_nextId (o : StartOracle) (cfg : ServerConfig) (w : World) :
    (checkTraceSettings o cfg w).nextId = w.nextId := by
  unfold checkTraceSettings
  simp only [World.emit]
  split_ifs <;> rfl

theorem configPhase_kinds (e : Event) (h : e.isConfigPhase = true) :
    e.onUaModule = false ∧ e.onCoreModule = false ∧ e.isCfgStartUp = false ∧
      e.isNmStartUp = false ∧ e.isDeleteModule = false := by
  cases e <;> first | exact ⟨rfl, rfl, rfl, rfl, rfl⟩ | simp [Event.isConfigPhase] at h

theorem callsSince_of_nil (w w2 : World) (h : w.trace = []) : callsSince w w2 = w2.trace := by
  simp [callsSince, h]

/-! ## The extension test lets short file names through -/

/-- C4, evaluated at the failing input: for the one-letter file name `a`, which does not
end in `.ini`, the test of line 300 holds (`-1 > 1 - 5`), so `start` builds a
`ServerConfigBasicIni` and goes on to construct a `CoreModule`, whatever the
collaborators return; with all of them succeeding it returns 0 and the server is
started. -/
theorem start_one_letter_path (x : Bool) (o : StartOracle) :
    lastIndexOf (toLower "a") ".ini" = -1 ∧ extensionTest (toLower "a") ".ini" = true ∧
    shortPathWorld.d.m_isStarted = false ∧ shortPathWorld.d.m_pServerConfig = none ∧
    Event.newServerConfig (ServerConfig.basicIni 1 "a" "" (some 0)) ∈
      callsSince shortPathWorld (start x o shortPathWorld).2 ∧
    Event.newCoreModule 2 ∈ callsSince shortPathWorld (start x o shortPathWorld).2 ∧
    (start x allGood shortPathWorld).1 = 0 ∧
    (start x allGood shortPathWorld).2.d.m_isStarted = true := by
  have hc : (createDefaultConfig x shortPathWorld).d.m_pServerConfig =
      some (ServerConfig.basicIni 1 "a" "" (some 0)) := by cases x <;> rfl
  have ht : (createDefaultConfig x shortPathWorld).trace =
      [Event.newServerConfig (ServerConfig.basicIni 1 "a" "" (some 0))] := by cases x <;> rfl
  have hn : (createDefaultConfig x shortPathWorld).nextId = 2 := by cases x <;> rfl
  refine ⟨by decide, by decide, rfl, rfl, ?_, ?_, ?_, ?_⟩
  · rw [start_with_config x o _ _ rfl hc]
    obtain ⟨es, he, _⟩ := startModules_calls o (ServerConfig.basicIni 1 "a" "" (some 0))
      (checkTraceSettings o _ (createDefaultConfig x shortPathWorld))
    obtain ⟨es2, he2, _⟩ := checkTraceSettings_calls o (ServerConfig.basicIni 1 "a" "" (some 0))
      (createDefaultConfig x shortPathWorld)
    rw [callsSince_of_nil _ _ rfl, he, he2, ht]
    simp
  · rw [start_with_config x o _ _ rfl hc]
    obtain ⟨es, he, _⟩ := startModules_calls o (ServerConfig.basicIni 1 "a" "" (some 0))
      (checkTraceSettings o _ (createDefaultConfig x shortPathWorld))
    rw [callsSince_of_nil _ _ rfl, he, checkTraceSettings_nextId, hn]
    simp
  · cases x <;> decide
  · cases x <;> rfl

/-- The scenario of the specification does behave as written: with the file name
`bad.unknownext` and no config object, `start` returns -1 after printing its message,
and nothing else happens. -/
theorem start_unknown_extension (x : Bool) (o : StartOracle) :
    start x o unknownExtWorld =
      (-1, unknownExtWorld.emit [Event.stdout noConfigurationMessage]) := by
  cases x <;> rfl

/-- C5, evaluated at the failing input: on a newly constructed server (empty file name,
no config object) the test of line 300 holds (`-1 > 0 - 5`), so `start` builds a
`ServerConfigBasicIni` for the empty file name and goes on to construct a `CoreModule`,
whatever the collaborators return; with all of them succeeding it returns 0 and the
server is started. -/
theorem start_without_configuration (x : Bool) (o : StartOracle) :
    OpcServer.new.d.m_configurationFile = "" ∧ OpcServer.new.d.m_pServerConfig = none ∧
    lastIndexOf (toLower "") ".ini" = -1 ∧ extensionTest (toLower "") ".ini" = true ∧
    Event.newServerConfig (ServerConfig.basicIni 1 "" "" (some 0)) ∈
      callsSince OpcServer.new (start x o OpcServer.new).2 ∧
    Event.newCoreModule 2 ∈ callsSince OpcServer.new (start x o OpcServer.new).2 ∧
    (start x allGood OpcServer.new).1 = 0 ∧
    (start x allGood OpcServer.new).2.d.m_isStarted = true := by
  have hc : (createDefaultConfig x OpcServer.new).d.m_pServerConfig =
      some (ServerConfig.basicIni 1 "" "" (some 0)) := by cases x <;> rfl
  have ht : (createDefaultConfig x OpcServer.new).trace =
      [Event.newServerConfig (ServerConfig.basicIni 1 "" "" (some 0))] := by cases x <;> rfl
  have hn : (createDefaultConfig x OpcServer.new).nextId = 2 := by cases x <;> rfl
  refine ⟨rfl, rfl, by decide, by decide, ?_, ?_, ?_, ?_⟩
  · rw [start_with_config x o _ _ rfl hc]
    obtain ⟨es, he, _⟩ := startModules_calls o (ServerConfig.basicIni 1 "" "" (some 0))
      (checkTraceSettings o _ (createDefaultConfig x OpcServer.new))
    obtain ⟨es2, he2, _⟩ := checkTraceSettings_calls o (ServerConfig.basicIni 1 "" "" (some 0))
      (createDefaultConfig x OpcServer.new)
    rw [callsSince_of_nil _ _ rfl, he, he2, ht]
    simp
  · rw [start_with_config x o _ _ rfl hc]
    obtain ⟨es, he, _⟩ := startModules_calls o (ServerConfig.basicIni 1 "" "" (some 0))
      (checkTraceSettings o _ (createDefaultConfig x OpcServer.new))
    rw [callsSince_of_nil _ _ rfl, he, checkTraceSettings_nextId, hn]
    simp
  · cases x <;> decide
  · cases x <;> rfl

/-! ## A failed load does not stop `start` -/

/-- C6, counterexample: with a config object available (object 7 of the application)
whose `loadConfiguration` returns `OpcUa_Bad` while every other collaborator succeeds,
`start` returns 0, the server is started, and a `CoreModule` and a `UaModule` were
constructed and initialised. -/
theorem load_failure_counterexample :
    applicationConfigWorld.d.m_isStarted = false ∧
    applicationConfigWorld.d.m_pServerConfig = some (ServerConfig.application 7) ∧
    loadFails.loadConfiguration.isGood = false ∧
    (start false loadFails applicationConfigWorld).1 = 0 ∧
    (start false loadFails applicationConfigWorld).2.d.m_isStarted = true ∧
    Event.loadConfiguration (ServerConfig.application 7) OpcUa_Bad ∈
      (start false loadFails applicationConfigWorld).2.trace ∧
    Event.coreInit 1 0 ∈ (start false loadFails applicationConfigWorld).2.trace ∧
    Event.uaInit 2 (ServerConfig.application 7) none 0 ∈
      (start false loadFails applicationConfigWorld).2.trace := by
  decide

/-- C6, amended: when a config object is available and its `loadConfiguration` does not
return a good status, `start` makes none of the trace set-up calls and continues with
lines 356-460 as it does after a good load: it constructs and initialises a `CoreModule`,
and it returns 0, with the server started, exactly when `CoreModule::initialize`,
`UaModule::initialize`, `CoreModule::startUp`, the config `startUp` and
`UaModule::startUp` all succeed. -/
theorem load_failure_continues (x : Bool) (o : StartOracle) (w : World) (cfg : ServerConfig)
    (hs : w.d.m_isStarted = false)
    (hc : (createDefaultConfig x w).d.m_pServerConfig = some cfg)
    (hl : o.loadConfiguration.isGood = false) :
    start x o w = startModules o cfg
      ((createDefaultConfig x w).emit [Event.loadConfiguration cfg o.loadConfiguration]) ∧
    (∀ e ∈ callsSince w (start x o w).2, e.isTraceSetup = false) ∧
    Event.newCoreModule (createDefaultConfig x w).nextId ∈ callsSince w (start x o w).2 ∧
    Event.coreInit (createDefaultConfig x w).nextId o.coreInit ∈
      callsSince w (start x o w).2 ∧
    ((start x o w).1 = 0 ↔
      (o.coreInit = 0 ∧ o.uaInit = 0 ∧ o.coreStartUp = 0 ∧
        (cfg.startUp o.cfgStartUp).isNotGood = false ∧ o.uaStartUp = 0)) ∧
    ((start x o w).2.d.m_isStarted = true ↔
      (o.coreInit = 0 ∧ o.uaInit = 0 ∧ o.coreStartUp = 0 ∧
        (cfg.startUp o.cfgStartUp).isNotGood = false ∧ o.uaStartUp = 0)) := by
  have hct : checkTraceSettings o cfg (createDefaultConfig x w) =
      (createDefaultConfig x w).emit [Event.loadConfiguration cfg o.loadConfiguration] := by
    simp [checkTraceSettings, hl]
  have hst : start x o w = startModules o cfg
      ((createDefaultConfig x w).emit [Event.loadConfiguration cfg o.loadConfiguration]) := by
    rw [start_with_config x o w cfg hs hc, hct]
  obtain ⟨es1, h1, p1, _⟩ := createDefaultConfig_calls x w
  obtain ⟨es, he, pe⟩ := startModules_calls o cfg
    ((createDefaultConfig x w).emit [Event.loadConfiguration cfg o.loadConfiguration])
  have htr : (start x o w).2.trace = w.trace ++ (es1 ++
      Event.loadConfiguration cfg o.loadConfiguration ::
      Event.newCoreModule (createDefaultConfig x w).nextId ::
      Event.coreInit (createDefaultConfig x w).nextId o.coreInit :: es) := by
    rw [hst, he]
    simp [World.emit, h1]
  have hcalls := callsSince_append w _ _ htr
  refine ⟨hst, ?_, ?_, ?_, ?_, ?_⟩
  · intro e hmem
    rw [hcalls] at hmem
    simp only [List.mem_append, List.mem_cons] at hmem
    rcases hmem with h | h | h | h | h
    · have hx : (createDefaultConfig x w).trace = w.trace ++ es1 := h1
      unfold createDefaultConfig at hx
      split_ifs at hx
      · split at hx
        · simp at hx
          subst hx
          simp at h
          subst h
          rfl
        · simp at hx
          subst hx
          simp at h
      · simp at hx
        subst hx
        simp at h
    · subst h; rfl
    · subst h; rfl
    · subst h; rfl
    · have := List.all_eq_true.mp pe e h
      cases e <;> first | rfl | simp [Event.isConfigPhase] at this
  · rw [hcalls]; simp
  · rw [hcalls]; simp
  · rw [hst]
    exact startModules_ret_zero_iff o cfg _
  · rw [hst]
    apply startModules_started_iff
    simp [World.emit, createDefaultConfig_isStarted, hs]

theorem load_failure_continues_witness :
    start false loadFails applicationConfigWorld = startModules loadFails
      (ServerConfig.application 7)
      ((createDefaultConfig false applicationConfigWorld).emit
        [Event.loadConfiguration (ServerConfig.application 7) loadFails.loadConfiguration]) ∧
    (start false loadFails applicationConfigWorld).1 = 0 :=
  ⟨(load_failure_continues false loadFails applicationConfigWorld
      (ServerConfig.application 7) rfl rfl rfl).1,
   ((load_failure_continues false loadFails applicationConfigWorld
      (ServerConfig.application 7) rfl rfl rfl).2.2.2.2.1).mpr (by decide)⟩

/-! ## Failures of the module steps -/

/-- The trace of `start` when a config object is available: the calls of the
configuration phase, then those of `startModules`. -/
theorem start_trace (x : Bool) (o : StartOracle) (w : World) (cfg : ServerConfig)
    (hs : w.d.m_isStarted = false)
    (hc : (createDefaultConfig x w).d.m_pServerConfig = some cfg) :
    ∃ es, (checkTraceSettings o cfg (createDefaultConfig x w)).trace = w.trace ++ es ∧
      (∀ e ∈ es, e.isConfigPhase = true) ∧
      (checkTraceSettings o cfg (createDefaultConfig x w)).d =
        { w.d with m_pServerConfig := some cfg } ∧
      (checkTraceSettings o cfg (createDefaultConfig x w)).nextId =
        (createDefaultConfig x w).nextId ∧
      start x o w = startModules o cfg (checkTraceSettings o cfg (createDefaultConfig x w)) := by
  obtain ⟨es, h1, h2, h3⟩ := config_phase x o w cfg
  exact ⟨es, h1, h2, by rw [h3, hc], checkTraceSettings_nextId o cfg _,
    start_with_config x o w cfg hs hc⟩

/-- C7: from a world that is not started and has a config object available, if
`CoreModule::initialize` returns a non-zero code then `start` returns that code, the
started flag stays false, the `UaModule` pointer is untouched, and among the calls made
there is none on a `UaModule` (construction included), no `startUp` of a config object
and no `startUp` of a node manager, whatever the registry holds. -/
theorem coreInit_failure (x : Bool) (o : StartOracle) (w : World) (cfg : ServerConfig)
    (hs : w.d.m_isStarted = false)
    (hc : (createDefaultConfig x w).d.m_pServerConfig = some cfg)
    (hi : o.coreInit ≠ 0) :
    (start x o w).1 = o.coreInit ∧ (start x o w).1 ≠ 0 ∧
    (start x o w).2.d.m_isStarted = false ∧
    (start x o w).2.d.m_pUaModule = w.d.m_pUaModule ∧
    (start x o w).2.d.m_listNodeManagers = w.d.m_listNodeManagers ∧
    ∀ e ∈ callsSince w (start x o w).2,
      e.onUaModule = false ∧ e.isCfgStartUp = false ∧ e.isNmStartUp = false := by
  obtain ⟨es, ht, hp, hd, _, hst⟩ := start_trace x o w cfg hs hc
  rw [hst, startModules_coreInit_fails o cfg _ hi]
  refine ⟨rfl, hi, ?_, ?_, ?_, ?_⟩
  · simp [hd, hs]
  · simp [hd]
  · simp [hd]
  · intro e he
    rw [callsSince_append w _ (es ++
      [Event.newCoreModule (checkTraceSettings o cfg (createDefaultConfig x w)).nextId,
       Event.coreInit (checkTraceSettings o cfg (createDefaultConfig x w)).nextId o.coreInit,
       Event.closeTrace]) (by simp [ht])] at he
    simp only [List.mem_append, List.mem_cons, List.mem_singleton, List.not_mem_nil,
      or_false] at he
    rcases he with h | h | h | h
    · obtain ⟨k1, _, k2, k3, _⟩ := configPhase_kinds e (hp e h)
      exact ⟨k1, k2, k3⟩
    · subst h; exact ⟨rfl, rfl, rfl⟩
    · subst h; exact ⟨rfl, rfl, rfl⟩
    · subst h; exact ⟨rfl, rfl, rfl⟩

theorem coreInit_failure_witness :
    (start false coreInitFails applicationConfigWorld).1 = -5 ∧
    (start false coreInitFails applicationConfigWorld).2.d.m_isStarted = false ∧
    (start false coreInitFails applicationConfigWorld).2.d.m_listNodeManagers = [10, 11] :=
  ⟨(coreInit_failure false coreInitFails applicationConfigWorld (ServerConfig.application 7)
      rfl rfl (by decide)).1,
   (coreInit_failure false coreInitFails applicationConfigWorld (ServerConfig.application 7)
      rfl rfl (by decide)).2.2.1,
   (coreInit_failure false coreInitFails applicationConfigWorld (ServerConfig.application 7)
      rfl rfl (by decide)).2.2.2.2.1⟩

/-- C8, evaluated at failing inputs: when `UaModule::initialize` fails, when
`CoreModule::startUp` fails and when the config `startUp` fails, `start` returns a
non-zero code with the started flag false, but both module pointers are still set to
the objects it constructed and no `delete` of a module was made (in the third case
`CoreModule::shutDown` was called).  A later `start` overwrites the pointers with new
objects, and the old ones are never deleted. -/
theorem failed_start_keeps_modules :
    ((start false uaInitFails applicationConfigWorld).1 = -6 ∧
      (start false uaInitFails applicationConfigWorld).2.d.m_isStarted = false ∧
      (start false uaInitFails applicationConfigWorld).2.d.m_pCoreModule = some 1 ∧
      (start false uaInitFails applicationConfigWorld).2.d.m_pUaModule = some 2 ∧
      ((start false uaInitFails applicationConfigWorld).2.trace.all
        fun e => !e.isDeleteModule) = true) ∧
    ((start false coreStartUpFails applicationConfigWorld).1 = -8 ∧
      (start false coreStartUpFails applicationConfigWorld).2.d.m_isStarted = false ∧
      (start false coreStartUpFails applicationConfigWorld).2.d.m_pCoreModule = some 1 ∧
      (start false coreStartUpFails applicationConfigWorld).2.d.m_pUaModule = some 2 ∧
      ((start false coreStartUpFails applicationConfigWorld).2.trace.all
        fun e => !e.isDeleteModule) = true) ∧
    ((start false cfgStartUpFails applicationConfigWorld).1 = -1 ∧
      (start false cfgStartUpFails applicationConfigWorld).2.d.m_isStarted = false ∧
      (start false cfgStartUpFails applicationConfigWorld).2.d.m_pCoreModule = some 1 ∧
      (start false cfgStartUpFails applicationConfigWorld).2.d.m_pUaModule = some 2 ∧
      Event.coreShutDown 1 ∈ (start false cfgStartUpFails applicationConfigWorld).2.trace ∧
      ((start false cfgStartUpFails applicationConfigWorld).2.trace.all
        fun e => !e.isDeleteModule) = true) ∧
    ((start false allGood (start false uaInitFails applicationConfigWorld).2).1 = 0 ∧
      (start false allGood (start false uaInitFails applicationConfigWorld).2).2.d.m_pCoreModule
        = some 3 ∧
      (start false allGood (start false uaInitFails applicationConfigWorld).2).2.d.m_pUaModule
        = some 4 ∧
      ((start false allGood (start false uaInitFails applicationConfigWorld).2).2.trace.all
        fun e => !e.isDeleteModule) = true) := by
  decide

/-- C9: from a world that is not started and has a config object available, if
`CoreModule::initialize`, `UaModule::initialize`, `CoreModule::startUp` and the config
`startUp` succeed and `UaModule::startUp` returns a non-zero code, then `start` returns
that code, the started flag is false, the three pointers (UaModule, CoreModule, config)
are `NULL`, and the calls end with: `UaModule` shut down and deleted, `CoreModule` shut
down and deleted, config object shut down and deleted, on the very objects this `start`
constructed or was given. -/
theorem uaStartUp_failure (x : Bool) (o : StartOracle) (w : World) (cfg : ServerConfig)
    (hs : w.d.m_isStarted = false)
    (hc : (createDefaultConfig x w).d.m_pServerConfig = some cfg)
    (h1 : o.coreInit = 0) (h2 : o.uaInit = 0) (h3 : o.coreStartUp = 0)
    (h4 : (cfg.startUp o.cfgStartUp).isNotGood = false) (h5 : o.uaStartUp ≠ 0) :
    (start x o w).1 = o.uaStartUp ∧ (start x o w).1 ≠ 0 ∧
    (start x o w).2.d.m_isStarted = false ∧
    (start x o w).2.d.m_pUaModule = none ∧
    (start x o w).2.d.m_pCoreModule = none ∧
    (start x o w).2.d.m_pServerConfig = none ∧
    ∃ pre, callsSince w (start x o w).2 = pre ++
        [Event.uaStartUp ((createDefaultConfig x w).nextId + 1) (createDefaultConfig x w).nextId
           o.uaStartUp,
         Event.uaShutDown ((createDefaultConfig x w).nextId + 1),
         Event.deleteUaModule ((createDefaultConfig x w).nextId + 1),
         Event.coreShutDown (createDefaultConfig x w).nextId,
         Event.coreGetServerManager (createDefaultConfig x w).nextId
           o.getServerManagerAfterShutDown,
         Event.deleteCoreModule (createDefaultConfig x w).nextId,
         Event.cfgShutDown cfg,
         Event.deleteServerConfig cfg,
         Event.closeTrace] ∧
      Event.newCoreModule (createDefaultConfig x w).nextId ∈ pre ∧
      Event.newUaModule ((createDefaultConfig x w).nextId + 1) ∈ pre := by
  obtain ⟨es, ht, hp, hd, hn, hst⟩ := start_trace x o w cfg hs hc
  rw [hst, startModules_uaStartUp_fails o cfg _ h1 h2 h3 h4 h5]
  refine ⟨rfl, h5, ?_, rfl, rfl, rfl, ?_⟩
  · simp [hd, hs]
  · refine ⟨es ++ (initCalls o cfg (createDefaultConfig x w).nextId
        (checkTraceSettings o cfg (createDefaultConfig x w)).d.m_pOpcServerCallback ++
      ([Event.coreStartUp (createDefaultConfig x w).nextId cfg o.coreStartUp,
        Event.coreGetServerManager (createDefaultConfig x w).nextId (some o.getServerManager),
        Event.cfgStartUp cfg (some o.getServerManager) (cfg.startUp o.cfgStartUp)] ++
       startNodeManagers (some o.getServerManager) o.nmStartUp 0
        (checkTraceSettings o cfg (createDefaultConfig x w)).d.m_listNodeManagers)), ?_, ?_, ?_⟩
    · apply callsSince_append
      simp [ht, hn, startUpCalls, rollbackCalls]
    · simp [initCalls]
    · simp [initCalls]

theorem uaStartUp_failure_witness :
    (start false uaStartUpFails applicationConfigWorld).1 = -7 ∧
    (start false uaStartUpFails applicationConfigWorld).2.d.m_pUaModule = none ∧
    (start false uaStartUpFails applicationConfigWorld).2.d.m_pCoreModule = none ∧
    (start false uaStartUpFails applicationConfigWorld).2.d.m_pServerConfig = none :=
  ⟨(uaStartUp_failure false uaStartUpFails applicationConfigWorld (ServerConfig.application 7)
      rfl rfl rfl rfl rfl rfl (by decide)).1,
   (uaStartUp_failure false uaStartUpFails applicationConfigWorld (ServerConfig.application 7)
      rfl rfl rfl rfl rfl rfl (by decide)).2.2.2.1,
   (uaStartUp_failure false uaStartUpFails applicationConfigWorld (ServerConfig.application 7)
      rfl rfl rfl rfl rfl rfl (by decide)).2.2.2.2.1,
   (uaStartUp_failure false uaStartUpFails applicationConfigWorld (ServerConfig.application 7)
      rfl rfl rfl rfl rfl rfl (by decide)).2.2.2.2.2.1⟩

/-! ## Node managers during `start` -/

theorem nmStartUpCalls_append (a b : List Event) :
    nmStartUpCalls (a ++ b) = nmStartUpCalls a ++ nmStartUpCalls b := by
  induction a with
  | nil => rfl
  | cons e rest ih =>
    cases e <;> simp [nmStartUpCalls, ih]

theorem nmStartUpCalls_of_none (l : List Event)
    (h : l.all (fun e => !e.isNmStartUp) = true) : nmStartUpCalls l = [] := by
  induction l with
  | nil => rfl
  | cons e rest ih =>
    simp only [List.all_cons, Bool.and_eq_true] at h
    cases e <;> first
      | (simp only [nmStartUpCalls]; exact ih h.2)
      | (exact absurd h.1 (by simp [Event.isNmStartUp]))

theorem nmStartUpCalls_of_config (l : List Event) (h : ∀ e ∈ l, e.isConfigPhase = true) :
    nmStartUpCalls l = [] := by
  apply nmStartUpCalls_of_none
  rw [List.all_eq_true]
  intro e he
  simp [(configPhase_kinds e (h e he)).2.2.2.1]

theorem nmStartUpCalls_startNodeManagers (sm : Option Handle) (ret : Nat → UaStatus)
    (l : List Handle) (i : Nat) :
    nmStartUpCalls (startNodeManagers sm ret i l) = l.map (fun nm => (nm, sm)) := by
  induction l generalizing i with
  | nil => rfl
  | cons nm rest ih => simp [startNodeManagers, nmStartUpCalls, ih]

theorem nmStartUpCalls_initCalls (o : StartOracle) (cfg : ServerConfig) (n : Handle)
    (cb : Option Handle) : nmStartUpCalls (initCalls o cfg n cb) = [] := by
  cases cb <;> rfl

theorem nmStartUpCalls_printEndpoints (cfg : ServerConfig) (urls : List String) :
    nmStartUpCalls (printEndpoints cfg urls) = [] := by
  apply nmStartUpCalls_of_none
  unfold printEndpoints
  split_ifs
  · simp only [List.all_cons, List.all_append, List.all_map, List.all_nil, Bool.and_true]
    simp [Event.isNmStartUp]
  · rfl

theorem printEndpoints_no_nm (cfg : ServerConfig) (urls : List String) :
    (printEndpoints cfg urls).all (fun e => !e.isNmStartUp) = true := by
  unfold printEndpoints
  split_ifs
  · simp only [List.all_cons, List.all_append, List.all_map, List.all_nil, Bool.and_true]
    simp [Event.isNmStartUp]
  · rfl

theorem filter_nm_of_none (l : List Event)
    (h : l.all (fun e => !e.isNmStartUp) = true) : l.filter Event.isNmStartUp = [] := by
  rw [List.filter_eq_nil_iff]
  intro e he
  have := List.all_eq_true.mp h e he
  simpa using this

theorem filter_nm_of_config (l : List Event) (h : ∀ e ∈ l, e.isConfigPhase = true) :
    l.filter Event.isNmStartUp = [] := by
  rw [List.filter_eq_nil_iff]
  intro e he
  simp [(configPhase_kinds e (h e he)).2.2.2.1]

theorem filter_nm_startNodeManagers (sm : Option Handle) (ret : Nat → UaStatus)
    (l : List Handle) (i : Nat) :
    (startNodeManagers sm ret i l).filter Event.isNmStartUp = startNodeManagers sm ret i l := by
  induction l generalizing i with
  | nil => rfl
  | cons nm rest ih => simp [startNodeManagers, Event.isNmStartUp, ih]

theorem filter_nm_initCalls (o : StartOracle) (cfg : ServerConfig) (n : Handle)
    (cb : Option Handle) : (initCalls o cfg n cb).filter Event.isNmStartUp = [] := by
  cases cb <;> rfl

theorem nmStartUpCalls_startUpCalls (o : StartOracle) (cfg : ServerConfig) (n : Handle)
    (nms : List Handle) :
    nmStartUpCalls (startUpCalls o cfg n nms) =
      nms.map (fun nm => (nm, some o.getServerManager)) := by
  unfold startUpCalls
  rw [nmStartUpCalls_append, nmStartUpCalls_append, nmStartUpCalls_startNodeManagers]
  simp [nmStartUpCalls]

theorem filter_nm_startUpCalls (o : StartOracle) (cfg : ServerConfig) (n : Handle)
    (nms : List Handle) :
    (startUpCalls o cfg n nms).filter Event.isNmStartUp =
      startNodeManagers (some o.getServerManager) o.nmStartUp 0 nms := by
  unfold startUpCalls
  rw [List.filter_append, List.filter_append, filter_nm_startNodeManagers]
  simp [Event.isNmStartUp]

/-- The result of a `start` in which the five fatal steps succeed. -/
theorem start_succeeds (x : Bool) (o : StartOracle) (w : World) (cfg : ServerConfig)
    (hs : w.d.m_isStarted = false)
    (hc : (createDefaultConfig x w).d.m_pServerConfig = some cfg)
    (h1 : o.coreInit = 0) (h2 : o.uaInit = 0) (h3 : o.coreStartUp = 0)
    (h4 : (cfg.startUp o.cfgStartUp).isNotGood = false) (h5 : o.uaStartUp = 0) :
    (start x o w).1 = 0 ∧
    (start x o w).2.d =
      { w.d with m_pServerConfig := some cfg
                 m_pCoreModule := some (createDefaultConfig x w).nextId
                 m_pUaModule := some ((createDefaultConfig x w).nextId + 1)
                 m_pServerManager := some o.getServerManager
                 m_isStarted := true } ∧
    ∃ es, (∀ e ∈ es, e.isConfigPhase = true) ∧
      callsSince w (start x o w).2 =
        es ++ (initCalls o cfg (createDefaultConfig x w).nextId w.d.m_pOpcServerCallback ++
          startUpCalls o cfg (createDefaultConfig x w).nextId w.d.m_listNodeManagers ++
          printEndpoints cfg o.endpointUrls) := by
  obtain ⟨es, ht, hp, hd, hn, hst⟩ := start_trace x o w cfg hs hc
  rw [hst, startModules_succeeds o cfg _ h1 h2 h3 h4 h5]
  refine ⟨rfl, ?_, es, hp, ?_⟩
  · simp [hd, hn]
  · apply callsSince_append
    simp [ht, hn, hd]

/-- C10: from a world that is not started and has a config object available, if the
five fatal steps succeed then, whatever each manager's `startUp` returns, `start`
returns 0 and sets the started flag; the `startUp` calls on node managers are exactly
one per registered manager, in registration order, each with the server manager handle
that `getServerManager` of the started `CoreModule` returned (which is also the handle
stored); and the return value and the private state are the same as when every manager
succeeds. -/
theorem nodeManagers_started (x : Bool) (o : StartOracle) (w : World) (cfg : ServerConfig)
    (hs : w.d.m_isStarted = false)
    (hc : (createDefaultConfig x w).d.m_pServerConfig = some cfg)
    (h1 : o.coreInit = 0) (h2 : o.uaInit = 0) (h3 : o.coreStartUp = 0)
    (h4 : (cfg.startUp o.cfgStartUp).isNotGood = false) (h5 : o.uaStartUp = 0) :
    (start x o w).1 = 0 ∧ (start x o w).2.d.m_isStarted = true ∧
    nmStartUpCalls (callsSince w (start x o w).2) =
      w.d.m_listNodeManagers.map (fun nm => (nm, some o.getServerManager)) ∧
    (callsSince w (start x o w).2).filter Event.isNmStartUp =
      startNodeManagers (some o.getServerManager) o.nmStartUp 0 w.d.m_listNodeManagers ∧
    Event.coreGetServerManager (createDefaultConfig x w).nextId (some o.getServerManager) ∈
      callsSince w (start x o w).2 ∧
    (start x o w).2.d.m_pServerManager = some o.getServerManager ∧
    (start x o w).2.d.m_listNodeManagers = w.d.m_listNodeManagers ∧
    (start x { o with nmStartUp := fun _ => OpcUa_Good } w).1 = (start x o w).1 ∧
    (start x { o with nmStartUp := fun _ => OpcUa_Good } w).2.d = (start x o w).2.d := by
  obtain ⟨r, hd, es, hp, hcalls⟩ := start_succeeds x o w cfg hs hc h1 h2 h3 h4 h5
  obtain ⟨r2, hd2, _⟩ := start_succeeds x { o with nmStartUp := fun _ => OpcUa_Good } w cfg
    hs hc h1 h2 h3 h4 h5
  refine ⟨r, ?_, ?_, ?_, ?_, ?_, ?_, ?_, ?_⟩
  · rw [hd]
  · rw [hcalls]
    simp only [nmStartUpCalls_append, nmStartUpCalls_of_config es hp, nmStartUpCalls_initCalls,
      nmStartUpCalls_printEndpoints, nmStartUpCalls_startUpCalls, List.nil_append,
      List.append_nil]
  · rw [hcalls]
    simp only [List.filter_append, filter_nm_of_config es hp, filter_nm_initCalls,
      filter_nm_of_none _ (printEndpoints_no_nm _ _), filter_nm_startUpCalls,
      List.nil_append, List.append_nil]
  · rw [hcalls]
    simp [startUpCalls]
  · rw [hd]
  · rw [hd]
  · rw [r, r2]
  · rw [hd, hd2]

theorem nodeManagers_started_witness :
    (start false secondManagerFails applicationConfigWorld).1 = 0 ∧
    (start false secondManagerFails applicationConfigWorld).2.d.m_isStarted = true ∧
    nmStartUpCalls (callsSince applicationConfigWorld
        (start false secondManagerFails applicationConfigWorld).2) =
      [(10, some 100), (11, some 100)] ∧
    (secondManagerFails.nmStartUp 1).isNotGood = true :=
  ⟨(nodeManagers_started false secondManagerFails applicationConfigWorld
      (ServerConfig.application 7) rfl rfl rfl rfl rfl rfl rfl).1,
   (nodeManagers_started false secondManagerFails applicationConfigWorld
      (ServerConfig.application 7) rfl rfl rfl rfl rfl rfl rfl).2.1,
   (nodeManagers_started false secondManagerFails applicationConfigWorld
      (ServerConfig.application 7) rfl rfl rfl rfl rfl rfl rfl).2.2.1,
   by decide⟩

/-! ## What the extension test accepts -/

theorem startsWithChars_length (p m : List Char) (h : startsWithChars p m = true) :
    p.length ≤ m.length := by
  induction p generalizing m with
  | nil => simp
  | cons a p ih =>
    cases m with
    | nil => simp [startsWithChars] at h
    | cons c m =>
      simp only [startsWithChars, Bool.and_eq_true] at h
      simpa using ih m h.2

theorem startsWithChars_eq (p m : List Char) (h : startsWithChars p m = true)
    (hl : m.length = p.length) : m = p := by
  induction p generalizing m with
  | nil => simpa using hl
  | cons a p ih =>
    cases m with
    | nil => simp at hl
    | cons c m =>
      simp only [startsWithChars, Bool.and_eq_true, beq_iff_eq] at h
      rw [h.1, ih m h.2 (by simpa using hl)]

theorem startsWithChars_self (p : List Char) : startsWithChars p p = true := by
  induction p with
  | nil => rfl
  | cons a p ih => simp [startsWithChars, ih]

/-- The scan returns `best` or the position of a match. -/
theorem lastIndexOfFrom_cases (p l : List Char) (i : Nat) (best : Int) :
    lastIndexOfFrom p l i best = best ∨
      ∃ k, k ≤ l.length ∧ startsWithChars p (l.drop k) = true ∧
        lastIndexOfFrom p l i best = (i : Int) + k := by
  induction l generalizing i best with
  | nil =>
    unfold lastIndexOfFrom
    split_ifs with h
    · exact Or.inr ⟨0, by simp, by simpa using h, by simp⟩
    · exact Or.inl rfl
  | cons c cs ih =>
    unfold lastIndexOfFrom
    rcases ih (i + 1) (if startsWithChars p (c :: cs) then (i : Int) else best) with h | ⟨k, hk, hm, hr⟩
    · rw [h]
      split_ifs with hc
      · exact Or.inr ⟨0, by simp, by simpa using hc, by simp⟩
      · exact Or.inl rfl
    · refine Or.inr ⟨k + 1, by simpa using hk, by simpa using hm, ?_⟩
      rw [hr]
      push_cast
      ring

/-- The scan returns at least the position of every match, and at least `best`. -/
theorem lastIndexOfFrom_ge (p l : List Char) (i : Nat) (best : Int) (hb : best ≤ i) :
    best ≤ lastIndexOfFrom p l i best ∧
    ∀ k, k ≤ l.length → startsWithChars p (l.drop k) = true →
      (i : Int) + k ≤ lastIndexOfFrom p l i best := by
  induction l generalizing i best with
  | nil =>
    unfold lastIndexOfFrom
    constructor
    · split_ifs <;> omega
    · intro k hk hm
      have hk0 : k = 0 := by simpa using hk
      subst hk0
      simp only [List.drop_nil] at hm
      simp [hm]
  | cons c cs ih =>
    unfold lastIndexOfFrom
    have hb2 : (if startsWithChars p (c :: cs) then (i : Int) else best) ≤ ((i + 1 : Nat) : Int) := by
      split_ifs <;> push_cast <;> omega
    obtain ⟨g1, g2⟩ := ih (i + 1) _ hb2
    constructor
    · refine le_trans ?_ g1
      split_ifs <;> omega
    · intro k hk hm
      cases k with
      | zero =>
        simp only [List.drop_zero] at hm
        rw [if_pos hm] at g1 ⊢
        simpa using g1
      | succ k =>
        have := g2 k (by simpa using hk) (by simpa using hm)
        push_cast at this ⊢
        omega

/-- Exactly what line 300 tests, for a four-character extension: the name is shorter than
four characters, or it ends in the extension. -/
theorem extensionTest_iff (s ext : String) (he : ext.length = 4) :
    extensionTest s ext = true ↔ (s.length < 4 ∨ endsWith s ext = true) := by
  have hel : ext.toList.length = 4 := he
  have hsl : s.toList.length = s.length := rfl
  unfold extensionTest lastIndexOf endsWith
  rw [decide_eq_true_iff, he]
  constructor
  · intro h
    rcases lastIndexOfFrom_cases ext.toList s.toList 0 (-1) with h1 | ⟨k, hk, hm, hr⟩
    · rw [h1] at h
      left
      omega
    · rw [hr] at h
      have hlen := startsWithChars_length _ _ hm
      rw [List.length_drop, hel, hsl] at hlen
      rw [hsl] at hk
      have hk4 : k = s.length - 4 := by omega
      right
      rw [beq_iff_eq]
      rw [← hk4]
      apply startsWithChars_eq _ _ hm
      rw [List.length_drop, hel, hsl]
      omega
  · intro h
    obtain ⟨g1, g2⟩ := lastIndexOfFrom_ge ext.toList s.toList 0 (-1) (by simp)
    rcases h with h | h
    · omega
    · rw [beq_iff_eq] at h
      by_cases h4 : s.length < 4
      · omega
      · have := g2 (s.length - 4) (by rw [hsl]; omega) (by rw [h]; exact startsWithChars_self _)
        push_cast at this ⊢
        omega

theorem toLower_length (s : String) : (toLower s).length = s.length := by
  show (List.map Char.toLower s.toList).length = s.toList.length
  rw [List.length_map]

/-- For file names of at least four characters the guard of `start` is the intended
one: with no config object and a name whose lower-cased form ends neither in `.ini` nor
(when XML support is compiled in) in `.xml`, `start` returns -1 after printing its
message, builds no config object and constructs no module. -/
theorem start_unrecognised_extension (x : Bool) (o : StartOracle) (w : World)
    (hs : w.d.m_isStarted = false) (hc : w.d.m_pServerConfig = none)
    (hlen : 4 ≤ w.d.m_configurationFile.length)
    (hini : endsWith (toLower w.d.m_configurationFile) ".ini" = false)
    (hxml : x = true → endsWith (toLower w.d.m_configurationFile) ".xml" = false) :
    start x o w =
      (-1, w.emit [Event.stdout noConfigurationMessage]) := by
  have h1 : extensionTest (toLower w.d.m_configurationFile) ".ini" = false := by
    rw [Bool.eq_false_iff]
    intro h
    rw [extensionTest_iff _ ".ini" (by decide), toLower_length] at h
    rcases h with h | h
    · omega
    · rw [hini] at h
      exact Bool.noConfusion h
  have h2 : (x && extensionTest (toLower w.d.m_configurationFile) ".xml") = false := by
    rw [Bool.eq_false_iff]
    intro h
    rw [Bool.and_eq_true] at h
    obtain ⟨hx, h⟩ := h
    rw [extensionTest_iff _ ".xml" (by decide), toLower_length] at h
    rcases h with h | h
    · omega
    · rw [hxml hx] at h
      exact Bool.noConfusion h
  have hcd : createDefaultConfig x w = w := by
    simp [createDefaultConfig, defaultConfig, h1, h2, hc]
  simp [start, hs, hcd, hc]

/-! ## The successful start, call by call -/

/-- A `start` that returns 0 began in a world that was not started, had a config object
after lines 295-310, and saw the five fatal steps succeed. -/
theorem start_zero (x : Bool) (o : StartOracle) (w : World) (h : (start x o w).1 = 0) :
    w.d.m_isStarted = false ∧ ∃ cfg, (createDefaultConfig x w).d.m_pServerConfig = some cfg ∧
      o.coreInit = 0 ∧ o.uaInit = 0 ∧ o.coreStartUp = 0 ∧
      (cfg.startUp o.cfgStartUp).isNotGood = false ∧ o.uaStartUp = 0 := by
  cases hs : w.d.m_isStarted with
  | true => simp [start, hs] at h
  | false =>
    refine ⟨rfl, ?_⟩
    cases hc : (createDefaultConfig x w).d.m_pServerConfig with
    | none =>
      have : (start x o w).1 = -1 := by simp [start, hs, hc]
      rw [this] at h
      exact absurd h (by decide)
    | some cfg =>
      rw [start_with_config x o w cfg hs hc] at h
      exact ⟨cfg, rfl, (startModules_ret_zero_iff o cfg _).mp h⟩

/-- Whenever `start` returns 0 the started flag is set afterwards. -/
theorem start_zero_running (x : Bool) (o : StartOracle) (w : World)
    (h : (start x o w).1 = 0) : (start x o w).2.d.m_isStarted = true := by
  obtain ⟨hs, cfg, hc, h1, h2, h3, h4, h5⟩ := start_zero x o w h
  rw [(start_succeeds x o w cfg hs hc h1 h2 h3 h4 h5).2.1]

theorem filter_step_startNodeManagers (sm : Option Handle) (ret : Nat → UaStatus)
    (l : List Handle) (i : Nat) :
    (startNodeManagers sm ret i l).filter Event.isLifecycleStep =
      startNodeManagers sm ret i l := by
  induction l generalizing i with
  | nil => rfl
  | cons nm rest ih => simp [startNodeManagers, Event.isLifecycleStep, ih]

theorem filter_step_initCalls (o : StartOracle) (cfg : ServerConfig) (n : Handle)
    (cb : Option Handle) :
    (initCalls o cfg n cb).filter Event.isLifecycleStep =
      [Event.coreInit n o.coreInit,
       Event.uaInit (n + 1) cfg (askUaServer cb o.createUaServer).1 o.uaInit] := by
  cases cb <;> rfl

theorem filter_step_startUpCalls (o : StartOracle) (cfg : ServerConfig) (n : Handle)
    (nms : List Handle) :
    (startUpCalls o cfg n nms).filter Event.isLifecycleStep =
      [Event.coreStartUp n cfg o.coreStartUp,
       Event.cfgStartUp cfg (some o.getServerManager) (cfg.startUp o.cfgStartUp)] ++
      startNodeManagers (some o.getServerManager) o.nmStartUp 0 nms ++
      [Event.uaStartUp (n + 1) n o.uaStartUp] := by
  unfold startUpCalls
  rw [List.filter_append, List.filter_append, filter_step_startNodeManagers]
  simp [Event.isLifecycleStep]

theorem filter_step_printEndpoints (cfg : ServerConfig) (urls : List String) :
    (printEndpoints cfg urls).filter Event.isLifecycleStep =
      [Event.getEndpointConfiguration cfg] := by
  unfold printEndpoints
  split_ifs
  · simp [List.filter_cons, List.filter_append, List.filter_map, Event.isLifecycleStep,
      List.filter_eq_nil_iff]
  · rfl

/-- The only step among the calls of lines 295-352 is `loadConfiguration`. -/
theorem config_phase_steps (x : Bool) (o : StartOracle) (w : World) (cfg : ServerConfig) :
    ∃ es, (checkTraceSettings o cfg (createDefaultConfig x w)).trace = w.trace ++ es ∧
      es.filter Event.isLifecycleStep = [Event.loadConfiguration cfg o.loadConfiguration] := by
  have h1 : ∃ es1, (createDefaultConfig x w).trace = w.trace ++ es1 ∧
      es1.filter Event.isLifecycleStep = [] := by
    unfold createDefaultConfig
    split_ifs
    · split
      · exact ⟨_, rfl, rfl⟩
      · exact ⟨[], by simp, rfl⟩
    · exact ⟨[], by simp, rfl⟩
  have h2 : ∃ es2, (checkTraceSettings o cfg (createDefaultConfig x w)).trace =
      (createDefaultConfig x w).trace ++ es2 ∧
      es2.filter Event.isLifecycleStep = [Event.loadConfiguration cfg o.loadConfiguration] := by
    unfold checkTraceSettings
    simp only [World.emit]
    split_ifs
    all_goals exact ⟨_, by simp only [List.append_assoc]; rfl, by rfl⟩
  obtain ⟨es1, t1, f1⟩ := h1
  obtain ⟨es2, t2, f2⟩ := h2
  exact ⟨es1 ++ es2, by rw [t2, t1, List.append_assoc], by rw [List.filter_append, f1, f2]; rfl⟩

theorem createDefaultConfig_trace (x : Bool) (w : World) :
    (createDefaultConfig x w).trace = w.trace ++ defaultConfigCalls x w := by
  unfold createDefaultConfig defaultConfigCalls
  split_ifs
  · split <;> simp
  · simp

theorem checkTraceSettings_trace (o : StartOracle) (cfg : ServerConfig) (w : World) :
    (checkTraceSettings o cfg w).trace = w.trace ++ traceSettingsCalls o cfg := by
  unfold checkTraceSettings traceSettingsCalls
  simp only [World.emit]
  split_ifs <;> simp

/-- C11, counterexample: the server of `applicationConfigWorld` (config object 7, node
managers 10 and 11, the built-in callback 0) is not started; with every collaborator
succeeding `start` returns 0 and makes fifteen calls, not the nine of the claimed
sequence: between them it reads the two trace settings, constructs the two modules, asks
the callback for a `UaServer` and asks the `CoreModule` for the server manager. -/
theorem start_success_sequence_counterexample :
    applicationConfigWorld.d.m_isStarted = false ∧
    applicationConfigWorld.d.m_pServerConfig = some (ServerConfig.application 7) ∧
    (start false allGood applicationConfigWorld).1 = 0 ∧
    (start false allGood applicationConfigWorld).2.d.m_isStarted = true ∧
    callsSince applicationConfigWorld (start false allGood applicationConfigWorld).2 =
      [Event.loadConfiguration (ServerConfig.application 7) OpcUa_Good,
       Event.getStackTraceSettings (ServerConfig.application 7),
       Event.getServerTraceSettings (ServerConfig.application 7),
       Event.newCoreModule 1,
       Event.coreInit 1 0,
       Event.newUaModule 2,
       Event.createUaServer 0 none,
       Event.uaInit 2 (ServerConfig.application 7) none 0,
       Event.coreStartUp 1 (ServerConfig.application 7) 0,
       Event.coreGetServerManager 1 (some 100),
       Event.cfgStartUp (ServerConfig.application 7) (some 100) OpcUa_Good,
       Event.nmStartUp 10 (some 100) OpcUa_Good,
       Event.nmStartUp 11 (some 100) OpcUa_Good,
       Event.uaStartUp 2 1 0,
       Event.getEndpointConfiguration (ServerConfig.application 7)] ∧
    callsSince applicationConfigWorld (start false allGood applicationConfigWorld).2 ≠
      [Event.loadConfiguration (ServerConfig.application 7) OpcUa_Good,
       Event.coreInit 1 0,
       Event.uaInit 2 (ServerConfig.application 7) none 0,
       Event.coreStartUp 1 (ServerConfig.application 7) 0,
       Event.cfgStartUp (ServerConfig.application 7) (some 100) OpcUa_Good,
       Event.nmStartUp 10 (some 100) OpcUa_Good,
       Event.nmStartUp 11 (some 100) OpcUa_Good,
       Event.uaStartUp 2 1 0,
       Event.getEndpointConfiguration (ServerConfig.application 7)] := by
  decide

/-- C11, amended: from a world that is not started and has a config object available, if
`CoreModule::initialize`, `UaModule::initialize`, `CoreModule::startUp`, the config
`startUp` and `UaModule::startUp` succeed (whatever `loadConfiguration` and the node
managers return, so in particular when they succeed too), then `start` returns 0 and
sets the started flag, and the calls it makes are exactly, in this order: the
construction of the default config object if one is built, `loadConfiguration` on the
config and after a good load the reading of the trace settings and the trace set-up,
the construction of the `CoreModule`, its `initialize`, the construction of the
`UaModule`, `createUaServer` on the callback if one is set, `initialize` on the
`UaModule`, `startUp` on the `CoreModule`, `getServerManager` on the `CoreModule`,
`startUp` on the config with the server manager, `startUp` on each node manager in
registration order, `startUp` on the `UaModule`, the endpoint enumeration and the lines
printed for the endpoints.  Among these calls the steps of the claimed sequence are
exactly the claimed ones in the claimed order.  And in any world, with any outcomes,
`start` returns 0 only if the started flag is set afterwards. -/
theorem start_success_sequence (x : Bool) (o : StartOracle) (w : World) (cfg : ServerConfig)
    (hs : w.d.m_isStarted = false)
    (hc : (createDefaultConfig x w).d.m_pServerConfig = some cfg)
    (h1 : o.coreInit = 0) (h2 : o.uaInit = 0) (h3 : o.coreStartUp = 0)
    (h4 : (cfg.startUp o.cfgStartUp).isNotGood = false) (h5 : o.uaStartUp = 0) :
    (start x o w).1 = 0 ∧ (start x o w).2.d.m_isStarted = true ∧
    callsSince w (start x o w).2 =
      defaultConfigCalls x w ++ traceSettingsCalls o cfg ++
      [Event.newCoreModule (createDefaultConfig x w).nextId,
       Event.coreInit (createDefaultConfig x w).nextId o.coreInit,
       Event.newUaModule ((createDefaultConfig x w).nextId + 1)] ++
      (askUaServer w.d.m_pOpcServerCallback o.createUaServer).2 ++
      [Event.uaInit ((createDefaultConfig x w).nextId + 1) cfg
         (askUaServer w.d.m_pOpcServerCallback o.createUaServer).1 o.uaInit,
       Event.coreStartUp (createDefaultConfig x w).nextId cfg o.coreStartUp,
       Event.coreGetServerManager (createDefaultConfig x w).nextId (some o.getServerManager),
       Event.cfgStartUp cfg (some o.getServerManager) (cfg.startUp o.cfgStartUp)] ++
      startNodeManagers (some o.getServerManager) o.nmStartUp 0 w.d.m_listNodeManagers ++
      [Event.uaStartUp ((createDefaultConfig x w).nextId + 1) (createDefaultConfig x w).nextId
         o.uaStartUp] ++
      printEndpoints cfg o.endpointUrls ∧
    (callsSince w (start x o w).2).filter Event.isLifecycleStep =
      [Event.loadConfiguration cfg o.loadConfiguration,
       Event.coreInit (createDefaultConfig x w).nextId o.coreInit,
       Event.uaInit ((createDefaultConfig x w).nextId + 1) cfg
         (askUaServer w.d.m_pOpcServerCallback o.createUaServer).1 o.uaInit,
       Event.coreStartUp (createDefaultConfig x w).nextId cfg o.coreStartUp,
       Event.cfgStartUp cfg (some o.getServerManager) (cfg.startUp o.cfgStartUp)] ++
      startNodeManagers (some o.getServerManager) o.nmStartUp 0 w.d.m_listNodeManagers ++
      [Event.uaStartUp ((createDefaultConfig x w).nextId + 1) (createDefaultConfig x w).nextId
         o.uaStartUp,
       Event.getEndpointConfiguration cfg] ∧
    (∀ (o2 : StartOracle) (w2 : World),
      (start x o2 w2).1 = 0 → (start x o2 w2).2.d.m_isStarted = true) := by
  obtain ⟨r, hd, _⟩ := start_succeeds x o w cfg hs hc h1 h2 h3 h4 h5
  obtain ⟨es2, ht2, hf2⟩ := config_phase_steps x o w cfg
  obtain ⟨_, _, _, hd3, hn3, hst⟩ := start_trace x o w cfg hs hc
  have hcalls : callsSince w (start x o w).2 = es2 ++
      (initCalls o cfg (createDefaultConfig x w).nextId w.d.m_pOpcServerCallback ++
        startUpCalls o cfg (createDefaultConfig x w).nextId w.d.m_listNodeManagers ++
        printEndpoints cfg o.endpointUrls) := by
    rw [hst, startModules_succeeds o cfg _ h1 h2 h3 h4 h5]
    apply callsSince_append
    simp [ht2, hn3, hd3]
  have hes2 : es2 = defaultConfigCalls x w ++ traceSettingsCalls o cfg := by
    have h := ht2
    rw [checkTraceSettings_trace, createDefaultConfig_trace, List.append_assoc] at h
    exact (List.append_cancel_left h).symm
  refine ⟨r, by rw [hd], ?_, ?_, fun o2 w2 h => start_zero_running x o2 w2 h⟩
  · rw [hcalls, hes2]
    simp [initCalls, startUpCalls]
  · rw [hcalls]
    simp only [List.filter_append, hf2, filter_step_initCalls, filter_step_startUpCalls,
      filter_step_printEndpoints]
    simp

theorem start_success_sequence_witness :
    (start false tracingOn iniPathWorld).1 = 0 ∧
    (start false tracingOn iniPathWorld).2.d.m_isStarted = true ∧
    callsSince iniPathWorld (start false tracingOn iniPathWorld).2 =
      [Event.newServerConfig (ServerConfig.basicIni 1 "ServerConfig.ini" "/opt/server" (some 0)),
       Event.loadConfiguration
         (ServerConfig.basicIni 1 "ServerConfig.ini" "/opt/server" (some 0)) OpcUa_Good,
       Event.getStackTraceSettings
         (ServerConfig.basicIni 1 "ServerConfig.ini" "/opt/server" (some 0)),
       Event.getServerTraceSettings
         (ServerConfig.basicIni 1 "ServerConfig.ini" "/opt/server" (some 0)),
       Event.getServerInstanceInfo
         (ServerConfig.basicIni 1 "ServerConfig.ini" "/opt/server" (some 0)),
       Event.initTrace 2 0 0 "srv.log" "urn:srv",
       Event.setTraceActive,
       Event.setStackTraceActive 3,
       Event.newCoreModule 2,
       Event.coreInit 2 0,
       Event.newUaModule 3,
       Event.createUaServer 0 none,
       Event.uaInit 3 (ServerConfig.basicIni 1 "ServerConfig.ini" "/opt/server" (some 0)) none 0,
       Event.coreStartUp 2 (ServerConfig.basicIni 1 "ServerConfig.ini" "/opt/server" (some 0)) 0,
       Event.coreGetServerManager 2 (some 100),
       Event.cfgStartUp (ServerConfig.basicIni 1 "ServerConfig.ini" "/opt/server" (some 0))
         (some 100) OpcUa_Good,
       Event.nmStartUp 10 (some 100) OpcUa_Good,
       Event.uaStartUp 3 2 0,
       Event.getEndpointConfiguration
         (ServerConfig.basicIni 1 "ServerConfig.ini" "/opt/server" (some 0)),
       Event.stdout "***************************************************\n",
       Event.stdout " Server opened endpoints for following URLs:\n",
       Event.stdout "     opc.tcp://host:4841\n",
       Event.stdout "***************************************************\n"] :=
  ⟨(start_success_sequence false tracingOn iniPathWorld
      (ServerConfig.basicIni 1 "ServerConfig.ini" "/opt/server" (some 0))
      rfl rfl rfl rfl rfl rfl rfl).1,
   (start_success_sequence false tracingOn iniPathWorld
      (ServerConfig.basicIni 1 "ServerConfig.ini" "/opt/server" (some 0))
      rfl rfl rfl rfl rfl rfl rfl).2.1,
   (start_success_sequence false tracingOn iniPathWorld
      (ServerConfig.basicIni 1 "ServerConfig.ini" "/opt/server" (some 0))
      rfl rfl rfl rfl rfl rfl rfl).2.2.1⟩

/-! ## `stop` on a started server -/

/-- The result of `stop` on a started server whose server manager pointer is set. -/
theorem stop_running (secs : Int) (reason : UaLocalizedText) (n : Nat) (w : World)
    (sm : Handle) (hs : w.d.m_isStarted = true) (hsm : w.d.m_pServerManager = some sm) :
    stop secs reason n w =
      some (0,
        { w with d := { w.d with m_isStarted := false
                                 m_pUaModule := none
                                 m_pCoreModule := none
                                 m_listNodeManagers := []
                                 m_pServerConfig := none }
                 trace := w.trace ++
                   (Event.startServerShutDown sm secs reason n ::
                     ((if n > 0 then [Event.sleep secs] else []) ++
                      stopUaModule w.d.m_pUaModule ++ stopCoreModule w.d.m_pCoreModule ++
                      stopNodeManagers w.d.m_listNodeManagers ++
                      stopServerConfig w.d.m_pServerConfig ++ [Event.closeTrace])) }) := by
  simp [stop, hs, hsm, World.emit]

/-- Line by line, the loop of lines 505-513 shuts a manager down and deletes it before
it goes to the next one. -/
theorem stopNodeManagers_eq (l : List Handle) :
    stopNodeManagers l =
      l.flatMap (fun nm => [Event.nmShutDown nm, Event.deleteNodeManager nm]) := by
  induction l with
  | nil => rfl
  | cons nm rest ih => simp [stopNodeManagers, ih]

/-- C12: in every started world the public methods can produce, the four pointers are
set and `stop` returns 0; after `startServerShutDown` (and the sleep, if clients are
connected) its calls are exactly, in this order: `UaModule` shut down and deleted,
`CoreModule` shut down and deleted, each registered node manager shut down and deleted
in list order, config object shut down and deleted (then `closeTrace`).  Afterwards the
started flag is false, the list of node managers is empty and the `UaModule`,
`CoreModule` and config pointers are `NULL`. -/
theorem stop_teardown (x : Bool) (secs : Int) (reason : UaLocalizedText) (n : Nat)
    (w : World) (hr : Reachable x w) (hs : w.d.m_isStarted = true) :
    ∃ sm ua core cfg w2,
      w.d.m_pServerManager = some sm ∧ w.d.m_pUaModule = some ua ∧
      w.d.m_pCoreModule = some core ∧ w.d.m_pServerConfig = some cfg ∧
      stop secs reason n w = some (0, w2) ∧
      callsSince w w2 =
        Event.startServerShutDown sm secs reason n ::
          ((if n > 0 then [Event.sleep secs] else []) ++
           [Event.uaShutDown ua, Event.deleteUaModule ua,
            Event.coreShutDown core, Event.deleteCoreModule core] ++
           w.d.m_listNodeManagers.flatMap
             (fun nm => [Event.nmShutDown nm, Event.deleteNodeManager nm]) ++
           [Event.cfgShutDown cfg, Event.deleteServerConfig cfg, Event.closeTrace]) ∧
      w2.d.m_isStarted = false ∧ w2.d.m_listNodeManagers = [] ∧
      w2.d.m_pUaModule = none ∧ w2.d.m_pCoreModule = none ∧ w2.d.m_pServerConfig = none := by
  obtain ⟨k1, k2, k3, k4⟩ := reachable_wired x w hr hs
  obtain ⟨sm, hsm⟩ := Option.ne_none_iff_exists'.mp k1
  obtain ⟨cfg, hcfg⟩ := Option.ne_none_iff_exists'.mp k2
  obtain ⟨core, hcore⟩ := Option.ne_none_iff_exists'.mp k3
  obtain ⟨ua, hua⟩ := Option.ne_none_iff_exists'.mp k4
  refine ⟨sm, ua, core, cfg, _, hsm, hua, hcore, hcfg, stop_running secs reason n w sm hs hsm,
    ?_, rfl, rfl, rfl, rfl, rfl⟩
  apply callsSince_append
  simp [hua, hcore, hcfg, stopUaModule, stopCoreModule, stopServerConfig, stopNodeManagers_eq]

theorem startedWorld_reachable : Reachable false startedWorld :=
  Reachable.start allGood
    (Reachable.addNodeManager 11 OpcUa_Good
      (Reachable.addNodeManager 10 OpcUa_Good
        (Reachable.setServerConfig (some 7) Reachable.new)))

theorem stop_teardown_witness :
    ∃ sm ua core cfg w2,
      startedWorld.d.m_pServerManager = some sm ∧ startedWorld.d.m_pUaModule = some ua ∧
      startedWorld.d.m_pCoreModule = some core ∧ startedWorld.d.m_pServerConfig = some cfg ∧
      stop 0 ⟨"en", "bye"⟩ 0 startedWorld = some (0, w2) ∧
      callsSince startedWorld w2 =
        Event.startServerShutDown sm 0 ⟨"en", "bye"⟩ 0 ::
          ((if 0 > 0 then [Event.sleep 0] else []) ++
           [Event.uaShutDown ua, Event.deleteUaModule ua,
            Event.coreShutDown core, Event.deleteCoreModule core] ++
           startedWorld.d.m_listNodeManagers.flatMap
             (fun nm => [Event.nmShutDown nm, Event.deleteNodeManager nm]) ++
           [Event.cfgShutDown cfg, Event.deleteServerConfig cfg, Event.closeTrace]) ∧
      w2.d.m_isStarted = false ∧ w2.d.m_listNodeManagers = [] ∧
      w2.d.m_pUaModule = none ∧ w2.d.m_pCoreModule = none ∧ w2.d.m_pServerConfig = none :=
  stop_teardown false 0 ⟨"en", "bye"⟩ 0 startedWorld startedWorld_reachable rfl

theorem stopNodeManagers_no_sleep (l : List Handle) :
    (stopNodeManagers l).filter Event.isSleep = [] := by
  induction l with
  | nil => rfl
  | cons nm rest ih => simp [stopNodeManagers, Event.isSleep, ih]

/-- C15: in every started world the public methods can produce, `stop(g, reason)`
returns 0 and its first call is `startServerShutDown(g, reason)` on the stored server
manager; when the client count it returns is greater than zero the next call is one
`sleep(g)`, and there is no other sleep; when the count is zero no sleep is called. -/
theorem stop_grace_period (x : Bool) (g : Int) (reason : UaLocalizedText) (clientCount : Nat)
    (w : World) (hr : Reachable x w) (hs : w.d.m_isStarted = true) :
    ∃ sm w2 rest,
      w.d.m_pServerManager = some sm ∧
      stop g reason clientCount w = some (0, w2) ∧
      callsSince w w2 =
        Event.startServerShutDown sm g reason clientCount ::
          ((if clientCount > 0 then [Event.sleep g] else []) ++ rest) ∧
      rest.filter Event.isSleep = [] ∧
      (callsSince w w2).filter Event.isSleep =
        (if clientCount > 0 then [Event.sleep g] else []) ∧
      (Event.sleep g ∈ callsSince w w2 ↔ clientCount > 0) := by
  obtain ⟨k1, _, _, _⟩ := reachable_wired x w hr hs
  obtain ⟨sm, hsm⟩ := Option.ne_none_iff_exists'.mp k1
  have hrest : (stopUaModule w.d.m_pUaModule ++ stopCoreModule w.d.m_pCoreModule ++
      stopNodeManagers w.d.m_listNodeManagers ++
      stopServerConfig w.d.m_pServerConfig ++ [Event.closeTrace]).filter Event.isSleep = [] := by
    simp only [List.filter_append, stopNodeManagers_no_sleep]
    cases w.d.m_pUaModule <;> cases w.d.m_pCoreModule <;> cases w.d.m_pServerConfig <;> rfl
  have hcalls : callsSince w
      (({ w with d := { w.d with m_isStarted := false
                                 m_pUaModule := none
                                 m_pCoreModule := none
                                 m_listNodeManagers := []
                                 m_pServerConfig := none }
                 trace := w.trace ++
                   (Event.startServerShutDown sm g reason clientCount ::
                     ((if clientCount > 0 then [Event.sleep g] else []) ++
                      stopUaModule w.d.m_pUaModule ++ stopCoreModule w.d.m_pCoreModule ++
                      stopNodeManagers w.d.m_listNodeManagers ++
                      stopServerConfig w.d.m_pServerConfig ++ [Event.closeTrace])) } : World)) =
      Event.startServerShutDown sm g reason clientCount ::
          ((if clientCount > 0 then [Event.sleep g] else []) ++
            (stopUaModule w.d.m_pUaModule ++ stopCoreModule w.d.m_pCoreModule ++
              stopNodeManagers w.d.m_listNodeManagers ++
              stopServerConfig w.d.m_pServerConfig ++ [Event.closeTrace])) := by
    apply callsSince_append
    simp
  have hfilter : (Event.startServerShutDown sm g reason clientCount ::
          ((if clientCount > 0 then [Event.sleep g] else []) ++
            (stopUaModule w.d.m_pUaModule ++ stopCoreModule w.d.m_pCoreModule ++
              stopNodeManagers w.d.m_listNodeManagers ++
              stopServerConfig w.d.m_pServerConfig ++ [Event.closeTrace]))).filter
        Event.isSleep = (if clientCount > 0 then [Event.sleep g] else []) := by
    have h0 : (Event.startServerShutDown sm g reason clientCount).isSleep = false := rfl
    rw [List.filter_cons, h0, List.filter_append, hrest]
    by_cases hpos : clientCount > 0
    · simp only [hpos, if_true]
      rfl
    · simp only [hpos, if_false]
      rfl
  refine ⟨sm, _, _, hsm, stop_running g reason clientCount w sm hs hsm, hcalls, hrest, ?_, ?_⟩
  · rw [hcalls, hfilter]
  · rw [hcalls]
    constructor
    · intro hmem
      by_contra hn
      have hm : Event.sleep g ∈ (Event.startServerShutDown sm g reason clientCount ::
          ((if clientCount > 0 then [Event.sleep g] else []) ++
            (stopUaModule w.d.m_pUaModule ++ stopCoreModule w.d.m_pCoreModule ++
              stopNodeManagers w.d.m_listNodeManagers ++
              stopServerConfig w.d.m_pServerConfig ++ [Event.closeTrace]))).filter
            Event.isSleep := List.mem_filter.mpr ⟨hmem, rfl⟩
      rw [hfilter, if_neg hn] at hm
      exact absurd hm (List.not_mem_nil _)
    · intro hpos
      simp [hpos]

theorem stop_grace_period_witness :
    ∃ sm w2 rest,
      startedWorld.d.m_pServerManager = some sm ∧
      stop 5 ⟨"en", "maintenance"⟩ 1 startedWorld = some (0, w2) ∧
      callsSince startedWorld w2 =
        Event.startServerShutDown sm 5 ⟨"en", "maintenance"⟩ 1 ::
          ((if 1 > 0 then [Event.sleep 5] else []) ++ rest) ∧
      rest.filter Event.isSleep = [] ∧
      (callsSince startedWorld w2).filter Event.isSleep =
        (if 1 > 0 then [Event.sleep 5] else []) ∧
      (Event.sleep 5 ∈ callsSince startedWorld w2 ↔ 1 > 0) :=
  stop_grace_period false 5 ⟨"en", "maintenance"⟩ 1 startedWorld startedWorld_reachable rfl

/-! ## The order of start up and the order of shut down -/

theorem filterMap_none {α β : Type} (f : α → Option β) (l : List α)
    (h : ∀ a ∈ l, f a = none) : l.filterMap f = [] := by
  induction l with
  | nil => rfl
  | cons a rest ih =>
    rw [List.filterMap_cons, h a (List.mem_cons_self a rest)]
    exact ih (fun b hb => h b (List.mem_cons_of_mem a hb))

theorem startedComponent_of_config (e : Event) (h : e.isConfigPhase = true) :
    e.startedComponent = none := by
  cases e <;> first | rfl | simp [Event.isConfigPhase] at h

theorem startUpOrder_startNodeManagers (sm : Option Handle) (ret : Nat → UaStatus)
    (l : List Handle) (i : Nat) :
    startUpOrder (startNodeManagers sm ret i l) = l.map Component.nodeManager := by
  induction l generalizing i with
  | nil => rfl
  | cons nm rest ih =>
    have := ih (i + 1)
    simp only [startUpOrder] at this ⊢
    simp [startNodeManagers, Event.startedComponent, this]

theorem startUpOrder_initCalls (o : StartOracle) (cfg : ServerConfig) (n : Handle)
    (cb : Option Handle) : startUpOrder (initCalls o cfg n cb) = [] := by
  cases cb <;> rfl

theorem startUpOrder_startUpCalls (o : StartOracle) (cfg : ServerConfig) (n : Handle)
    (nms : List Handle) :
    startUpOrder (startUpCalls o cfg n nms) =
      [Component.coreModule n, Component.serverConfig cfg] ++
        nms.map Component.nodeManager ++ [Component.uaModule (n + 1)] := by
  have h := startUpOrder_startNodeManagers (some o.getServerManager) o.nmStartUp nms 0
  simp only [startUpOrder] at h ⊢
  unfold startUpCalls
  rw [List.filterMap_append, List.filterMap_append, h]
  rfl

/-- The calls of lines 439-454 are the endpoint enumeration and console output. -/
theorem printEndpoints_kinds (cfg : ServerConfig) (urls : List String) :
    ∀ e ∈ printEndpoints cfg urls,
      e = Event.getEndpointConfiguration cfg ∨ ∃ s, e = Event.stdout s := by
  intro e he
  unfold printEndpoints at he
  split_ifs at he
  · simp only [List.mem_cons, List.mem_append, List.mem_map, List.mem_singleton,
      List.not_mem_nil, or_false] at he
    rcases he with h | ((h | h) | ⟨u, _, h⟩) | h
    · exact Or.inl h
    · exact Or.inr ⟨_, h⟩
    · exact Or.inr ⟨_, h⟩
    · exact Or.inr ⟨_, h.symm⟩
    · exact Or.inr ⟨_, h⟩
  · simp only [List.mem_singleton] at he
    exact Or.inl he

theorem startUpOrder_printEndpoints (cfg : ServerConfig) (urls : List String) :
    startUpOrder (printEndpoints cfg urls) = [] := by
  apply filterMap_none
  intro e he
  rcases printEndpoints_kinds cfg urls e he with h | ⟨s, h⟩ <;> subst h <;> rfl

theorem shutDownOrder_stopNodeManagers (l : List Handle) :
    shutDownOrder (stopNodeManagers l) = l.map Component.nodeManager := by
  induction l with
  | nil => rfl
  | cons nm rest ih =>
    simp only [shutDownOrder] at ih ⊢
    simp [stopNodeManagers, Event.shutDownComponent, ih]

/-- C13, counterexample: start of the server with node managers 10 and 11 with
everything succeeding, then `stop`.  The components were started in the order
CoreModule, config, 10, 11, UaModule and are shut down in the order UaModule,
CoreModule, 10, 11, config, which is not the reverse. -/
theorem shutdown_order_counterexample :
    (start false allGood applicationConfigWorld).1 = 0 ∧
    startUpOrder (callsSince applicationConfigWorld startedWorld) =
      [Component.coreModule 1, Component.serverConfig (ServerConfig.application 7),
       Component.nodeManager 10, Component.nodeManager 11, Component.uaModule 2] ∧
    (stop 0 ⟨"en", "bye"⟩ 0 startedWorld).map
        (fun r => (r.1, shutDownOrder (callsSince startedWorld r.2))) =
      some (0, [Component.uaModule 2, Component.coreModule 1,
        Component.nodeManager 10, Component.nodeManager 11,
        Component.serverConfig (ServerConfig.application 7)]) ∧
    [Component.uaModule 2, Component.coreModule 1,
        Component.nodeManager 10, Component.nodeManager 11,
        Component.serverConfig (ServerConfig.application 7)] ≠
      (startUpOrder (callsSince applicationConfigWorld startedWorld)).reverse := by
  decide

/-- C13, amended: for every successful `start` followed by `stop`, the components were
started in the order CoreModule, config object, node managers in registration order,
UaModule, and `stop` shuts them down in the order UaModule, CoreModule, node managers
in registration order, config object.  This is never the reverse of the start order. -/
theorem shutdown_order (x : Bool) (o : StartOracle) (w : World) (cfg : ServerConfig)
    (g : Int) (reason : UaLocalizedText) (clientCount : Nat)
    (hs : w.d.m_isStarted = false)
    (hc : (createDefaultConfig x w).d.m_pServerConfig = some cfg)
    (h1 : o.coreInit = 0) (h2 : o.uaInit = 0) (h3 : o.coreStartUp = 0)
    (h4 : (cfg.startUp o.cfgStartUp).isNotGood = false) (h5 : o.uaStartUp = 0) :
    (start x o w).1 = 0 ∧
    startUpOrder (callsSince w (start x o w).2) =
      [Component.coreModule (createDefaultConfig x w).nextId, Component.serverConfig cfg] ++
        w.d.m_listNodeManagers.map Component.nodeManager ++
        [Component.uaModule ((createDefaultConfig x w).nextId + 1)] ∧
    ∃ w2, stop g reason clientCount (start x o w).2 = some (0, w2) ∧
      shutDownOrder (callsSince (start x o w).2 w2) =
        [Component.uaModule ((createDefaultConfig x w).nextId + 1),
         Component.coreModule (createDefaultConfig x w).nextId] ++
          w.d.m_listNodeManagers.map Component.nodeManager ++
          [Component.serverConfig cfg] ∧
      shutDownOrder (callsSince (start x o w).2 w2) ≠
        (startUpOrder (callsSince w (start x o w).2)).reverse := by
  obtain ⟨r, hd, es, hp, hcalls⟩ := start_succeeds x o w cfg hs hc h1 h2 h3 h4 h5
  have hup : startUpOrder (callsSince w (start x o w).2) =
      [Component.coreModule (createDefaultConfig x w).nextId, Component.serverConfig cfg] ++
        w.d.m_listNodeManagers.map Component.nodeManager ++
        [Component.uaModule ((createDefaultConfig x w).nextId + 1)] := by
    rw [hcalls]
    have e1 : startUpOrder es = [] :=
      filterMap_none _ _ (fun e he => startedComponent_of_config e (hp e he))
    have e2 := startUpOrder_initCalls o cfg (createDefaultConfig x w).nextId
      w.d.m_pOpcServerCallback
    have e3 := startUpOrder_startUpCalls o cfg (createDefaultConfig x w).nextId
      w.d.m_listNodeManagers
    have e4 := startUpOrder_printEndpoints cfg o.endpointUrls
    simp only [startUpOrder] at e1 e2 e3 e4 ⊢
    rw [List.filterMap_append, List.filterMap_append, List.filterMap_append, e1, e2, e3, e4]
    simp
  have hst : (start x o w).2.d.m_isStarted = true := by rw [hd]
  have hsm : (start x o w).2.d.m_pServerManager = some o.getServerManager := by rw [hd]
  have hdown : shutDownOrder (callsSince (start x o w).2
      (({ (start x o w).2 with
          d := { (start x o w).2.d with m_isStarted := false
                                        m_pUaModule := none
                                        m_pCoreModule := none
                                        m_listNodeManagers := []
                                        m_pServerConfig := none }
          trace := (start x o w).2.trace ++
            (Event.startServerShutDown o.getServerManager g reason clientCount ::
              ((if clientCount > 0 then [Event.sleep g] else []) ++
               stopUaModule (start x o w).2.d.m_pUaModule ++
               stopCoreModule (start x o w).2.d.m_pCoreModule ++
               stopNodeManagers (start x o w).2.d.m_listNodeManagers ++
               stopServerConfig (start x o w).2.d.m_pServerConfig ++
               [Event.closeTrace])) } : World))) =
      [Component.uaModule ((createDefaultConfig x w).nextId + 1),
         Component.coreModule (createDefaultConfig x w).nextId] ++
          w.d.m_listNodeManagers.map Component.nodeManager ++
          [Component.serverConfig cfg] := by
    rw [callsSince_append _ _ _ rfl, hd]
    have e5 := shutDownOrder_stopNodeManagers w.d.m_listNodeManagers
    simp only [shutDownOrder] at e5 ⊢
    simp only [stopUaModule, stopCoreModule, stopServerConfig, List.filterMap_cons,
      List.filterMap_append, e5]
    split_ifs <;> simp [Event.shutDownComponent]
  refine ⟨r, hup, _, stop_running g reason clientCount _ o.getServerManager hst hsm, hdown, ?_⟩
  rw [hdown, hup]
  intro heq
  have := congrArg List.reverse heq
  simp at this

theorem shutdown_order_witness :
    (start false allGood applicationConfigWorld).1 = 0 ∧
    startUpOrder (callsSince applicationConfigWorld
        (start false allGood applicationConfigWorld).2) =
      [Component.coreModule (createDefaultConfig false applicationConfigWorld).nextId,
       Component.serverConfig (ServerConfig.application 7)] ++
        applicationConfigWorld.d.m_listNodeManagers.map Component.nodeManager ++
        [Component.uaModule ((createDefaultConfig false applicationConfigWorld).nextId + 1)] :=
  ⟨(shutdown_order false allGood applicationConfigWorld (ServerConfig.application 7)
      0 ⟨"en", "bye"⟩ 0 rfl rfl rfl rfl rfl rfl rfl).1,
   (shutdown_order false allGood applicationConfigWorld (ServerConfig.application 7)
      0 ⟨"en", "bye"⟩ 0 rfl rfl rfl rfl rfl rfl rfl).2.1⟩

/-! ## Starting again after `stop` -/

/-- A `stop` that returns 0 was called on a started server and leaves this world. -/
theorem stop_zero (secs : Int) (reason : UaLocalizedText) (n : Nat) (w w2 : World)
    (h : stop secs reason n w = some (0, w2)) :
    w.d.m_isStarted = true ∧
    w2.d = { w.d with m_isStarted := false
                      m_pUaModule := none
                      m_pCoreModule := none
                      m_listNodeManagers := []
                      m_pServerConfig := none } ∧
    w2.nextId = w.nextId := by
  cases hs : w.d.m_isStarted with
  | false => simp [stop, hs] at h
  | true =>
    cases hsm : w.d.m_pServerManager with
    | none => simp [stop, hs, hsm] at h
    | some sm =>
      rw [stop_running secs reason n w sm hs hsm] at h
      have h2 := (Prod.mk.inj (Option.some.inj h)).2
      subst h2
      exact ⟨rfl, rfl, rfl⟩

theorem createDefaultConfig_nextId_ge (x : Bool) (w : World) :
    w.nextId ≤ (createDefaultConfig x w).nextId := by
  unfold createDefaultConfig
  split_ifs
  · split
    · simp
    · exact le_refl _
  · exact le_refl _

/-- A `start` from a world that is not started which returns a non-zero code leaves the
started flag false. -/
theorem start_failed_not_started (x : Bool) (o : StartOracle) (w : World)
    (hs : w.d.m_isStarted = false) (hf : (start x o w).1 ≠ 0) :
    (start x o w).2.d.m_isStarted = false := by
  cases hc : (createDefaultConfig x w).d.m_pServerConfig with
  | none => simp [start, hs, hc, World.emit, createDefaultConfig_isStarted]
  | some cfg =>
    rw [start_with_config x o w cfg hs hc] at hf ⊢
    have hs1 : (checkTraceSettings o cfg (createDefaultConfig x w)).d.m_isStarted = false := by
      rw [checkTraceSettings_d, createDefaultConfig_isStarted, hs]
    cases hst : (startModules o cfg (checkTraceSettings o cfg (createDefaultConfig x w))).2.d.m_isStarted with
    | false => rfl
    | true =>
      exact absurd ((startModules_ret_zero_iff o cfg _).mpr
        ((startModules_started_iff o cfg _ hs1).mp hst)) hf

/-- C16: `getDefaultNodeManager` never changes the private state.  When the server is
not started it returns `NULL` and calls nothing; when it is started it returns the
handle that `getNodeManagerNS1()->getNodeManagerConfig()` of the stored server manager
gives.  So in every world the public methods can produce it returns a handle exactly
when the started flag is set; it returns `NULL` on a new server, after a `start` that
began from a stopped server and failed, and after a `stop` that returned 0. -/
theorem getDefaultNodeManager_running (x : Bool) (ns1 nmConfig : Handle) (w : World) :
    (∀ r, getDefaultNodeManager ns1 nmConfig w = some r →
      r.2.d = w.d ∧ r.2.nextId = w.nextId ∧ r.2.m_logFilePath = w.m_logFilePath) ∧
    (w.d.m_isStarted = false → getDefaultNodeManager ns1 nmConfig w = some (none, w)) ∧
    (∀ sm, w.d.m_isStarted = true → w.d.m_pServerManager = some sm →
      getDefaultNodeManager ns1 nmConfig w =
        some (some nmConfig, w.emit [Event.getNodeManagerNS1 sm ns1,
          Event.getNodeManagerConfig ns1 nmConfig])) ∧
    (Reachable x w → ∃ r, getDefaultNodeManager ns1 nmConfig w = some r ∧
      (r.1 ≠ none ↔ w.d.m_isStarted = true)) ∧
    getDefaultNodeManager ns1 nmConfig OpcServer.new = some (none, OpcServer.new) ∧
    (∀ o, w.d.m_isStarted = false → (start x o w).1 ≠ 0 →
      getDefaultNodeManager ns1 nmConfig (start x o w).2 = some (none, (start x o w).2)) ∧
    (∀ g reason n w2, stop g reason n w = some (0, w2) →
      getDefaultNodeManager ns1 nmConfig w2 = some (none, w2)) := by
  have hstopped : ∀ v : World, v.d.m_isStarted = false →
      getDefaultNodeManager ns1 nmConfig v = some (none, v) := by
    intro v hv
    simp [getDefaultNodeManager, hv]
  have hstarted : ∀ (v : World) (sm : Handle), v.d.m_isStarted = true →
      v.d.m_pServerManager = some sm →
      getDefaultNodeManager ns1 nmConfig v =
        some (some nmConfig, v.emit [Event.getNodeManagerNS1 sm ns1,
          Event.getNodeManagerConfig ns1 nmConfig]) := by
    intro v sm hv hsm
    simp [getDefaultNodeManager, hv, hsm]
  refine ⟨?_, hstopped w, fun sm => hstarted w sm, ?_, hstopped _ rfl, ?_, ?_⟩
  · intro r hr
    cases hs : w.d.m_isStarted with
    | false =>
      rw [hstopped w hs] at hr
      have := Option.some.inj hr
      subst this
      exact ⟨rfl, rfl, rfl⟩
    | true =>
      cases hsm : w.d.m_pServerManager with
      | none => simp [getDefaultNodeManager, hs, hsm] at hr
      | some sm =>
        rw [hstarted w sm hs hsm] at hr
        have := Option.some.inj hr
        subst this
        exact ⟨rfl, rfl, rfl⟩
  · intro hreach
    cases hs : w.d.m_isStarted with
    | false => exact ⟨_, hstopped w hs, by simp⟩
    | true =>
      obtain ⟨k1, _, _, _⟩ := reachable_wired x w hreach hs
      obtain ⟨sm, hsm⟩ := Option.ne_none_iff_exists'.mp k1
      exact ⟨_, hstarted w sm hs hsm, by simp⟩
  · intro o hs hf
    exact hstopped _ (start_failed_not_started x o w hs hf)
  · intro g reason n w2 h
    exact hstopped _ (by rw [(stop_zero g reason n w w2 h).2.1])

theorem getDefaultNodeManager_running_witness :
    getDefaultNodeManager 200 201 applicationConfigWorld = some (none, applicationConfigWorld) ∧
    getDefaultNodeManager 200 201 startedWorld =
      some (some 201, startedWorld.emit [Event.getNodeManagerNS1 100 200,
        Event.getNodeManagerConfig 200 201]) ∧
    getDefaultNodeManager 200 201 (start false coreInitFails applicationConfigWorld).2 =
      some (none, (start false coreInitFails applicationConfigWorld).2) ∧
    getDefaultNodeManager 200 201 (afterStop 0 ⟨"en", "bye"⟩ 0 startedWorld) =
      some (none, afterStop 0 ⟨"en", "bye"⟩ 0 startedWorld) :=
  ⟨(getDefaultNodeManager_running false 200 201 applicationConfigWorld).2.1 rfl,
   (getDefaultNodeManager_running false 200 201 startedWorld).2.2.1 100 rfl rfl,
   (getDefaultNodeManager_running false 200 201 applicationConfigWorld).2.2.2.2.2.1
      coreInitFails rfl (by decide),
   (getDefaultNodeManager_running false 200 201 startedWorld).2.2.2.2.2.2
      0 ⟨"en", "bye"⟩ 0 _ (by decide)⟩

/-- C18: `addNodeManager` appends the manager to the list.  When the server is not
started it returns 0 and nothing else changes (no call).  When the server is started
it makes exactly one call, `startUp` on the new manager with the stored server manager
pointer, and returns -1 if the status is not good, else 0; in both cases the manager is
in the list, the started flag is still set and no other field differs.  In every started
world the public methods can produce, the pointer passed is set. -/
theorem addNodeManager_contract (x : Bool) (nm : Handle) (ret : UaStatus) (w : World) :
    (addNodeManager nm ret w).2.d.m_listNodeManagers = w.d.m_listNodeManagers ++ [nm] ∧
    (w.d.m_isStarted = false →
      addNodeManager nm ret w =
        (0, { w with d := { w.d with
                m_listNodeManagers := w.d.m_listNodeManagers ++ [nm] } })) ∧
    (w.d.m_isStarted = true →
      addNodeManager nm ret w =
        ((if ret.isNotGood then -1 else 0),
          { w with d := { w.d with m_listNodeManagers := w.d.m_listNodeManagers ++ [nm] }
                   trace := w.trace ++ [Event.nmStartUp nm w.d.m_pServerManager ret] })) ∧
    (Reachable x w → w.d.m_isStarted = true → ∃ sm, w.d.m_pServerManager = some sm) := by
  refine ⟨?_, ?_, ?_, ?_⟩
  · unfold addNodeManager
    simp only [World.setD, World.emit]
    split_ifs <;> rfl
  · intro hs
    simp [addNodeManager, World.setD, hs]
  · intro hs
    unfold addNodeManager
    simp only [World.setD, World.emit, hs]
    split_ifs <;> simp_all
  · intro hr hs
    exact Option.ne_none_iff_exists'.mp (reachable_wired x w hr hs).1

theorem addNodeManager_contract_witness :
    addNodeManager 12 OpcUa_Bad applicationConfigWorld =
      (0, { applicationConfigWorld with d := { applicationConfigWorld.d with
              m_listNodeManagers := applicationConfigWorld.d.m_listNodeManagers ++ [12] } }) ∧
    addNodeManager 12 OpcUa_Bad startedWorld =
      ((if OpcUa_Bad.isNotGood then -1 else 0),
        { startedWorld with
            d := { startedWorld.d with
              m_listNodeManagers := startedWorld.d.m_listNodeManagers ++ [12] }
            trace := startedWorld.trace ++
              [Event.nmStartUp 12 startedWorld.d.m_pServerManager OpcUa_Bad] }) ∧
    (∃ sm, startedWorld.d.m_pServerManager = some sm) :=
  ⟨(addNodeManager_contract false 12 OpcUa_Bad applicationConfigWorld).2.1 rfl,
   (addNodeManager_contract false 12 OpcUa_Bad startedWorld).2.2.1 rfl,
   (addNodeManager_contract false 12 OpcUa_Bad startedWorld).2.2.2 startedWorld_reachable rfl⟩

/-! ## Session and identity policy of the adapters -/

/-- C17: `ServerConfigBasicIni::logonSessionUser` is the decision table of the
specification: an Anonymous token gives `OpcUa_Good` exactly when anonymous logon is
enabled (else `OpcUa_Bad`); a UserName token gives `OpcUa_Bad` when that mode is
disabled, the status the callback returns when it is enabled and a callback is set, and
`OpcUa_Bad` when no callback is set; any other kind gives `OpcUa_Bad`.  The callback is
called (once) only for a UserName token with the mode enabled and a callback set. -/
theorem logonSessionUser_decision (cb : Option Handle) (anon userPw : Bool)
    (cbRet : UaStatus) (pSession : Option Handle) (tok : UserTokenType) :
    (ServerConfigBasicIni.logonSessionUser cb anon userPw cbRet pSession tok).1 =
      logonDecision anon userPw (cb.map fun _ => cbRet) tok ∧
    (tok = UserTokenType.Anonymous →
      ((ServerConfigBasicIni.logonSessionUser cb anon userPw cbRet pSession tok).1 = OpcUa_Good
        ↔ anon = true) ∧
      ((ServerConfigBasicIni.logonSessionUser cb anon userPw cbRet pSession tok).1 = OpcUa_Bad
        ↔ anon = false)) ∧
    (tok = UserTokenType.UserName → userPw = false →
      (ServerConfigBasicIni.logonSessionUser cb anon userPw cbRet pSession tok).1 = OpcUa_Bad) ∧
    (tok = UserTokenType.UserName → userPw = true → cb ≠ none →
      (ServerConfigBasicIni.logonSessionUser cb anon userPw cbRet pSession tok).1 = cbRet) ∧
    (tok = UserTokenType.UserName → userPw = true → cb = none →
      (ServerConfigBasicIni.logonSessionUser cb anon userPw cbRet pSession tok).1 = OpcUa_Bad) ∧
    (tok ≠ UserTokenType.Anonymous → tok ≠ UserTokenType.UserName →
      (ServerConfigBasicIni.logonSessionUser cb anon userPw cbRet pSession tok).1 = OpcUa_Bad) ∧
    (ServerConfigBasicIni.logonSessionUser cb anon userPw cbRet pSession tok).2.filter
        AdapterCall.onCallback =
      (match cb with
        | some c =>
          if tok = UserTokenType.UserName ∧ userPw = true then
            [AdapterCall.callbackLogonSessionUser c pSession tok]
          else []
        | none => []) := by
  have hne : OpcUa_Good ≠ OpcUa_Bad := by decide
  cases tok <;> cases cb <;> cases anon <;> cases userPw <;>
    simp [ServerConfigBasicIni.logonSessionUser, logonDecision, AdapterCall.onCallback, hne,
      hne.symm]

theorem logonSessionUser_decision_witness :
    (ServerConfigBasicIni.logonSessionUser (some 0) false true OpcUa_Good none
        UserTokenType.Anonymous).1 = OpcUa_Bad ∧
    (ServerConfigBasicIni.logonSessionUser (some 0) true true OpcUa_Bad none
        UserTokenType.Anonymous).1 = OpcUa_Good ∧
    (ServerConfigBasicIni.logonSessionUser (some 0) true true ⟨0x80130000⟩ (some 5)
        UserTokenType.UserName).1 = ⟨0x80130000⟩ ∧
    (ServerConfigBasicIni.logonSessionUser none true true OpcUa_Good (some 5)
        UserTokenType.UserName).1 = OpcUa_Bad ∧
    (ServerConfigBasicIni.logonSessionUser (some 0) true true OpcUa_Good (some 5)
        UserTokenType.Certificate).1 = OpcUa_Bad :=
  ⟨((logonSessionUser_decision (some 0) false true OpcUa_Good none
      UserTokenType.Anonymous).2.1 rfl).2.mpr rfl,
   ((logonSessionUser_decision (some 0) true true OpcUa_Bad none
      UserTokenType.Anonymous).2.1 rfl).1.mpr rfl,
   (logonSessionUser_decision (some 0) true true ⟨0x80130000⟩ (some 5)
      UserTokenType.UserName).2.2.2.1 rfl rfl (by decide),
   (logonSessionUser_decision none true true OpcUa_Good (some 5)
      UserTokenType.UserName).2.2.2.2.1 rfl rfl rfl,
   (logonSessionUser_decision (some 0) true true OpcUa_Good (some 5)
      UserTokenType.Certificate).2.2.2.2.2.1 (by decide) (by decide)⟩

/-- C20: the INI adapter and the XML adapter decide alike.  For every setting of the
two booleans, token kind, session, callback (set or not) and callback answer,
`logonSessionUser` of the two returns the same status and makes the same calls; for
every session id and authentication token `createSession` of the two returns the same
session and makes the same calls: the session the callback returns when a callback is
set, else a new `UaSession` built from the two arguments, without any call. -/
theorem adapters_agree (cb : Option Handle) (anon userPw : Bool) (cbRet : UaStatus)
    (pSession cbSession : Option Handle) (tok : UserTokenType)
    (sessionID : Int) (authenticationToken : Nat) :
    ServerConfigBasicIni.logonSessionUser cb anon userPw cbRet pSession tok =
      ServerConfigBasicXml.logonSessionUser cb anon userPw cbRet pSession tok ∧
    ServerConfigBasicIni.createSession cb cbSession sessionID authenticationToken =
      ServerConfigBasicXml.createSession cb cbSession sessionID authenticationToken ∧
    (∀ c, cb = some c →
      ServerConfigBasicIni.createSession cb cbSession sessionID authenticationToken =
        (SessionResult.fromCallback cbSession,
          [AdapterCall.callbackCreateSession c sessionID authenticationToken])) ∧
    (cb = none →
      ServerConfigBasicIni.createSession cb cbSession sessionID authenticationToken =
        (SessionResult.newUaSession sessionID authenticationToken, [])) := by
  refine ⟨rfl, rfl, ?_, ?_⟩
  · intro c hc
    subst hc
    rfl
  · intro hc
    subst hc
    rfl

theorem adapters_agree_witness :
    ServerConfigBasicXml.createSession (some 0) (some 9) 42 77 =
      (SessionResult.fromCallback (some 9), [AdapterCall.callbackCreateSession 0 42 77]) ∧
    ServerConfigBasicXml.createSession none (some 9) 42 77 =
      (SessionResult.newUaSession 42 77, []) :=
  ⟨((adapters_agree (some 0) true true OpcUa_Good none (some 9) UserTokenType.Anonymous 42
      77).2.1).symm.trans
    ((adapters_agree (some 0) true true OpcUa_Good none (some 9) UserTokenType.Anonymous 42
      77).2.2.1 0 rfl),
   ((adapters_agree none true true OpcUa_Good none (some 9) UserTokenType.Anonymous 42
      77).2.1).symm.trans
    ((adapters_agree none true true OpcUa_Good none (some 9) UserTokenType.Anonymous 42
      77).2.2.2 rfl)⟩

/-! ## The destructor -/

theorem shutDownOrder_append (a b : List Event) :
    shutDownOrder (a ++ b) = shutDownOrder a ++ shutDownOrder b := by
  simp [shutDownOrder, List.filterMap_append]

theorem deleteOrder_append (a b : List Event) :
    deleteOrder (a ++ b) = deleteOrder a ++ deleteOrder b := by
  simp [deleteOrder, List.filterMap_append]

theorem deleteOrder_stopNodeManagers (l : List Handle) :
    deleteOrder (stopNodeManagers l) = l.map Component.nodeManager := by
  induction l with
  | nil => rfl
  | cons nm rest ih =>
    simp only [deleteOrder] at ih ⊢
    simp [stopNodeManagers, Event.deletedComponent, ih]

theorem deleteOrder_deleteNodeManagers (l : List Handle) :
    deleteOrder (deleteNodeManagers l) = l.map Component.nodeManager := by
  induction l with
  | nil => rfl
  | cons nm rest ih =>
    simp only [deleteOrder, deleteNodeManagers] at ih ⊢
    simp [Event.deletedComponent, ih]

theorem shutDownOrder_deleteNodeManagers (l : List Handle) :
    shutDownOrder (deleteNodeManagers l) = [] := by
  induction l with
  | nil => rfl
  | cons nm rest ih =>
    simp only [shutDownOrder, deleteNodeManagers] at ih ⊢
    simp [Event.shutDownComponent, ih]

/-- The calls `stop` makes on a started server whose server manager pointer is `sm`. -/
theorem stop_running_calls (secs : Int) (reason : UaLocalizedText) (n : Nat) (w w2 : World)
    (sm : Handle) (hs : w.d.m_isStarted = true) (hsm : w.d.m_pServerManager = some sm)
    (h : stop secs reason n w = some (0, w2)) :
    callsSince w w2 =
      Event.startServerShutDown sm secs reason n ::
        ((if n > 0 then [Event.sleep secs] else []) ++
         stopUaModule w.d.m_pUaModule ++ stopCoreModule w.d.m_pCoreModule ++
         stopNodeManagers w.d.m_listNodeManagers ++
         stopServerConfig w.d.m_pServerConfig ++ [Event.closeTrace]) := by
  rw [stop_running secs reason n w sm hs hsm] at h
  have h2 := (Prod.mk.inj (Option.some.inj h)).2
  subst h2
  exact callsSince_append _ _ _ rfl

/-- The destructor of a started server: after the `stop` it runs, no pointer is set and
the list is empty, so lines 107-132 call nothing. -/
theorem destroy_running (n : Nat) (w : World) (sm : Handle)
    (hs : w.d.m_isStarted = true) (hsm : w.d.m_pServerManager = some sm) :
    destroy n w =
      some { w with
        d := { w.d with m_isStarted := false
                        m_pUaModule := none
                        m_pCoreModule := none
                        m_listNodeManagers := []
                        m_pServerConfig := none }
        m_quasarCallback := none
        trace := w.trace ++
          (Event.startServerShutDown sm 0 ⟨"en", "Application shut down"⟩ n ::
            ((if n > 0 then [Event.sleep 0] else []) ++
             stopUaModule w.d.m_pUaModule ++ stopCoreModule w.d.m_pCoreModule ++
             stopNodeManagers w.d.m_listNodeManagers ++
             stopServerConfig w.d.m_pServerConfig ++ [Event.closeTrace])) } := by
  simp [destroy, hs, stop_running 0 ⟨"en", "Application shut down"⟩ n w sm hs hsm,
    deleteIfSet, deleteNodeManagers]

/-- The destructor of a server that is not started deletes what the pointers and the
list hold. -/
theorem destroy_stopped (n : Nat) (w : World) (hs : w.d.m_isStarted = false) :
    destroy n w =
      some { w with
        d := { w.d with m_pUaModule := none
                        m_pCoreModule := none
                        m_listNodeManagers := []
                        m_pServerConfig := none }
        m_quasarCallback := none
        trace := w.trace ++
          (deleteIfSet Event.deleteUaModule w.d.m_pUaModule ++
           deleteIfSet Event.deleteCoreModule w.d.m_pCoreModule ++
           deleteNodeManagers w.d.m_listNodeManagers ++
           deleteIfSet Event.deleteServerConfig w.d.m_pServerConfig) } := by
  simp [destroy, hs]

theorem stop_calls_orders (sm : Handle) (secs : Int) (reason : UaLocalizedText) (n : Nat)
    (d : OpcServerPrivate) :
    shutDownOrder (Event.startServerShutDown sm secs reason n ::
        ((if n > 0 then [Event.sleep secs] else []) ++
         stopUaModule d.m_pUaModule ++ stopCoreModule d.m_pCoreModule ++
         stopNodeManagers d.m_listNodeManagers ++
         stopServerConfig d.m_pServerConfig ++ [Event.closeTrace])) = ownedComponents d ∧
    deleteOrder (Event.startServerShutDown sm secs reason n ::
        ((if n > 0 then [Event.sleep secs] else []) ++
         stopUaModule d.m_pUaModule ++ stopCoreModule d.m_pCoreModule ++
         stopNodeManagers d.m_listNodeManagers ++
         stopServerConfig d.m_pServerConfig ++ [Event.closeTrace])) = ownedComponents d := by
  have e1 := shutDownOrder_stopNodeManagers d.m_listNodeManagers
  have e2 := deleteOrder_stopNodeManagers d.m_listNodeManagers
  unfold ownedComponents
  simp only [shutDownOrder, deleteOrder] at e1 e2 ⊢
  simp only [List.filterMap_cons, List.filterMap_append, e1, e2]
  constructor <;>
    cases d.m_pUaModule <;> cases d.m_pCoreModule <;> cases d.m_pServerConfig <;>
    split_ifs <;>
    simp [stopUaModule, stopCoreModule, stopServerConfig, Event.shutDownComponent,
      Event.deletedComponent]

theorem destroy_stopped_orders (d : OpcServerPrivate) :
    shutDownOrder (deleteIfSet Event.deleteUaModule d.m_pUaModule ++
        deleteIfSet Event.deleteCoreModule d.m_pCoreModule ++
        deleteNodeManagers d.m_listNodeManagers ++
        deleteIfSet Event.deleteServerConfig d.m_pServerConfig) = [] ∧
    deleteOrder (deleteIfSet Event.deleteUaModule d.m_pUaModule ++
        deleteIfSet Event.deleteCoreModule d.m_pCoreModule ++
        deleteNodeManagers d.m_listNodeManagers ++
        deleteIfSet Event.deleteServerConfig d.m_pServerConfig) = ownedComponents d := by
  have e1 := shutDownOrder_deleteNodeManagers d.m_listNodeManagers
  have e2 := deleteOrder_deleteNodeManagers d.m_listNodeManagers
  unfold ownedComponents
  simp only [shutDownOrder, deleteOrder] at e1 e2 ⊢
  simp only [List.filterMap_append, e1, e2]
  constructor <;>
    cases d.m_pUaModule <;> cases d.m_pCoreModule <;> cases d.m_pServerConfig <;>
    simp [deleteIfSet, Event.shutDownComponent, Event.deletedComponent]

/-- C21: in every world the public methods can produce, the destructor of a started
server makes exactly the calls of `stop(0, reason)`, in the same order, and nothing
more: every owned object (UaModule, CoreModule, each entry of the list, config object)
is shut down once and deleted once.  The destructor of a server that is not started
makes no `shutDown` call and deletes each owned object once.  Afterwards nothing is
owned; when the owned objects are pairwise different, each is deleted exactly once. -/
theorem destructor_teardown (x : Bool) (n : Nat) (w : World) (hr : Reachable x w) :
    (w.d.m_isStarted = true →
      ∃ w2 w3, stop 0 ⟨"en", "Application shut down"⟩ n w = some (0, w2) ∧
        destroy n w = some w3 ∧
        callsSince w w3 = callsSince w w2 ∧
        shutDownOrder (callsSince w w3) = ownedComponents w.d ∧
        deleteOrder (callsSince w w3) = ownedComponents w.d ∧
        ownedComponents w3.d = []) ∧
    (w.d.m_isStarted = false →
      ∃ w3, destroy n w = some w3 ∧
        shutDownOrder (callsSince w w3) = [] ∧
        deleteOrder (callsSince w w3) = ownedComponents w.d ∧
        ownedComponents w3.d = []) ∧
    (∃ w3, destroy n w = some w3 ∧
      ((ownedComponents w.d).Nodup →
        ∀ c ∈ ownedComponents w.d, (deleteOrder (callsSince w w3)).count c = 1)) := by
  have hrun : w.d.m_isStarted = true →
      ∃ w2 w3, stop 0 ⟨"en", "Application shut down"⟩ n w = some (0, w2) ∧
        destroy n w = some w3 ∧
        callsSince w w3 = callsSince w w2 ∧
        shutDownOrder (callsSince w w3) = ownedComponents w.d ∧
        deleteOrder (callsSince w w3) = ownedComponents w.d ∧
        ownedComponents w3.d = [] := by
    intro hs
    obtain ⟨sm, hsm⟩ := Option.ne_none_iff_exists'.mp (reachable_wired x w hr hs).1
    have hst := stop_running 0 ⟨"en", "Application shut down"⟩ n w sm hs hsm
    have hde := destroy_running n w sm hs hsm
    have c2 := stop_running_calls 0 ⟨"en", "Application shut down"⟩ n w _ sm hs hsm hst
    have c3 : callsSince w _ = _ := callsSince_append w _ _
      (rfl : ({ w with
        d := { w.d with m_isStarted := false
                        m_pUaModule := none
                        m_pCoreModule := none
                        m_listNodeManagers := []
                        m_pServerConfig := none }
        m_quasarCallback := none
        trace := w.trace ++
          (Event.startServerShutDown sm 0 ⟨"en", "Application shut down"⟩ n ::
            ((if n > 0 then [Event.sleep 0] else []) ++
             stopUaModule w.d.m_pUaModule ++ stopCoreModule w.d.m_pCoreModule ++
             stopNodeManagers w.d.m_listNodeManagers ++
             stopServerConfig w.d.m_pServerConfig ++ [Event.closeTrace])) } : World).trace = _)
    obtain ⟨o1, o2⟩ := stop_calls_orders sm 0 ⟨"en", "Application shut down"⟩ n w.d
    refine ⟨_, _, hst, hde, by rw [c3, c2], by rw [c3]; exact o1, by rw [c3]; exact o2, rfl⟩
  have hstop : w.d.m_isStarted = false →
      ∃ w3, destroy n w = some w3 ∧
        shutDownOrder (callsSince w w3) = [] ∧
        deleteOrder (callsSince w w3) = ownedComponents w.d ∧
        ownedComponents w3.d = [] := by
    intro hs
    have c3 : callsSince w _ = _ := callsSince_append w _ _
      (rfl : ({ w with
        d := { w.d with m_pUaModule := none
                        m_pCoreModule := none
                        m_listNodeManagers := []
                        m_pServerConfig := none }
        m_quasarCallback := none
        trace := w.trace ++
          (deleteIfSet Event.deleteUaModule w.d.m_pUaModule ++
           deleteIfSet Event.deleteCoreModule w.d.m_pCoreModule ++
           deleteNodeManagers w.d.m_listNodeManagers ++
           deleteIfSet Event.deleteServerConfig w.d.m_pServerConfig) } : World).trace = _)
    obtain ⟨o1, o2⟩ := destroy_stopped_orders w.d
    exact ⟨_, destroy_stopped n w hs, by rw [c3]; exact o1, by rw [c3]; exact o2, rfl⟩
  refine ⟨hrun, hstop, ?_⟩
  cases hs : w.d.m_isStarted with
  | true =>
    obtain ⟨_, w3, _, hd, _, _, ho, _⟩ := hrun hs
    exact ⟨w3, hd, fun hnd c hc => by rw [ho]; exact List.count_eq_one_of_mem hnd hc⟩
  | false =>
    obtain ⟨w3, hd, _, ho, _⟩ := hstop hs
    exact ⟨w3, hd, fun hnd c hc => by rw [ho]; exact List.count_eq_one_of_mem hnd hc⟩

theorem applicationConfigWorld_reachable : Reachable false applicationConfigWorld :=
  Reachable.addNodeManager 11 OpcUa_Good
    (Reachable.addNodeManager 10 OpcUa_Good
      (Reachable.setServerConfig (some 7) Reachable.new))

theorem destructor_teardown_witness :
    (∃ w2 w3, stop 0 ⟨"en", "Application shut down"⟩ 0 startedWorld = some (0, w2) ∧
        destroy 0 startedWorld = some w3 ∧
        callsSince startedWorld w3 = callsSince startedWorld w2 ∧
        shutDownOrder (callsSince startedWorld w3) = ownedComponents startedWorld.d ∧
        deleteOrder (callsSince startedWorld w3) = ownedComponents startedWorld.d ∧
        ownedComponents w3.d = []) ∧
    ownedComponents startedWorld.d =
      [Component.uaModule 2, Component.coreModule 1, Component.nodeManager 10,
       Component.nodeManager 11, Component.serverConfig (ServerConfig.application 7)] ∧
    (∃ w3, destroy 0 applicationConfigWorld = some w3 ∧
        shutDownOrder (callsSince applicationConfigWorld w3) = [] ∧
        deleteOrder (callsSince applicationConfigWorld w3) =
          ownedComponents applicationConfigWorld.d ∧
        ownedComponents w3.d = []) ∧
    ownedComponents applicationConfigWorld.d =
      [Component.nodeManager 10, Component.nodeManager 11,
       Component.serverConfig (ServerConfig.application 7)] :=
  ⟨(destructor_teardown false 0 startedWorld startedWorld_reachable).1 rfl, by decide,
   (destructor_teardown false 0 applicationConfigWorld applicationConfigWorld_reachable).2.1
      rfl, by decide⟩

/-! ## The handles of a started server -/

/-- With a server manager that is an object, `startNullable` is `start`. -/
theorem startNullable_some (x : Bool) (o : StartOracle) (w : World) :
    startNullable (some o.getServerManager) x o w = start x o w := rfl

theorem filter_nmShutDown_of_all (l : List Event)
    (h : l.all (fun e => !e.isNmShutDown) = true) : l.filter Event.isNmShutDown = [] := by
  rw [List.filter_eq_nil_iff]
  intro e he
  have := List.all_eq_true.mp h e he
  simpa using this

theorem config_no_nmShutDown (l : List Event) (h : ∀ e ∈ l, e.isConfigPhase = true) :
    l.filter Event.isNmShutDown = [] := by
  rw [List.filter_eq_nil_iff]
  intro e he
  have hc := h e he
  cases e <;> first | (simp [Event.isConfigPhase] at hc; done) | simp [Event.isNmShutDown]

theorem startNodeManagers_no_nmShutDown (sm : Option Handle) (ret : Nat → UaStatus)
    (l : List Handle) (i : Nat) :
    (startNodeManagers sm ret i l).filter Event.isNmShutDown = [] := by
  induction l generalizing i with
  | nil => rfl
  | cons nm rest ih => simp [startNodeManagers, Event.isNmShutDown, ih]

theorem initCalls_no_nmShutDown (o : StartOracle) (cfg : ServerConfig) (n : Handle)
    (cb : Option Handle) : (initCalls o cfg n cb).filter Event.isNmShutDown = [] := by
  cases cb <;> rfl

theorem startUpCalls_no_nmShutDown (o : StartOracle) (cfg : ServerConfig) (n : Handle)
    (nms : List Handle) : (startUpCalls o cfg n nms).filter Event.isNmShutDown = [] := by
  unfold startUpCalls
  rw [List.filter_append, List.filter_append, startNodeManagers_no_nmShutDown]
  rfl

theorem printEndpoints_no_nmShutDown (cfg : ServerConfig) (urls : List String) :
    (printEndpoints cfg urls).filter Event.isNmShutDown = [] := by
  rw [List.filter_eq_nil_iff]
  intro e he
  rcases printEndpoints_kinds cfg urls e he with h | ⟨s, h⟩ <;> subst h <;>
    simp [Event.isNmShutDown]

/-- Every `start` only adds calls to the trace. -/
theorem start_extends (x : Bool) (o : StartOracle) (w : World) :
    ∃ es, (start x o w).2.trace = w.trace ++ es := by
  cases hs : w.d.m_isStarted with
  | true => exact ⟨[], by simp [start, hs]⟩
  | false =>
    obtain ⟨es1, h1, _, _⟩ := createDefaultConfig_calls x w
    cases hc : (createDefaultConfig x w).d.m_pServerConfig with
    | none =>
      exact ⟨es1 ++ [Event.stdout noConfigurationMessage],
        by simp [start, hs, hc, World.emit, h1]⟩
    | some cfg =>
      obtain ⟨es, ht, _, _, _, hst⟩ := start_trace x o w cfg hs hc
      obtain ⟨es2, h2, _⟩ := startModules_calls o cfg
        (checkTraceSettings o cfg (createDefaultConfig x w))
      exact ⟨es ++ _, by rw [hst, h2, ht, List.append_assoc]⟩

/-- The world and the calls of a `start` that fails at `UaModule::startUp`. -/
theorem start_rolled_back (x : Bool) (o : StartOracle) (w : World) (cfg : ServerConfig)
    (hs : w.d.m_isStarted = false)
    (hc : (createDefaultConfig x w).d.m_pServerConfig = some cfg)
    (h1 : o.coreInit = 0) (h2 : o.uaInit = 0) (h3 : o.coreStartUp = 0)
    (h4 : (cfg.startUp o.cfgStartUp).isNotGood = false) (h5 : o.uaStartUp ≠ 0) :
    (start x o w).2.d =
      { w.d with m_pCoreModule := none
                 m_pUaModule := none
                 m_pServerConfig := none
                 m_pServerManager := o.getServerManagerAfterShutDown } ∧
    ∃ es, (∀ e ∈ es, e.isConfigPhase = true) ∧
      (start x o w).2.trace = w.trace ++ (es ++
        (initCalls o cfg (createDefaultConfig x w).nextId w.d.m_pOpcServerCallback ++
          startUpCalls o cfg (createDefaultConfig x w).nextId w.d.m_listNodeManagers ++
          rollbackCalls o cfg (createDefaultConfig x w).nextId)) := by
  obtain ⟨es, ht, hp, hd, hn, hst⟩ := start_trace x o w cfg hs hc
  rw [hst, startModules_uaStartUp_fails o cfg _ h1 h2 h3 h4 h5]
  refine ⟨by simp [hd], es, hp, ?_⟩
  simp [ht, hn, hd]

/-- C23: when `start` fails at `UaModule::startUp`, the list of node managers is as it
was before the call, `startUp` was called once on each entry, in order, and no node
manager was shut down.  If the application then calls `setServerConfig` (with any
pointer, `NULL` included) and a `start` that returns 0, that `start` calls `startUp` on
each of the same entries again, and in all the calls since the first `start` began no
node manager was shut down. -/
theorem rollback_keeps_managers (x : Bool) (o1 : StartOracle) (w : World) (cfg : ServerConfig)
    (hs : w.d.m_isStarted = false)
    (hc : (createDefaultConfig x w).d.m_pServerConfig = some cfg)
    (h1 : o1.coreInit = 0) (h2 : o1.uaInit = 0) (h3 : o1.coreStartUp = 0)
    (h4 : (cfg.startUp o1.cfgStartUp).isNotGood = false) (h5 : o1.uaStartUp ≠ 0) :
    (start x o1 w).1 = o1.uaStartUp ∧
    (start x o1 w).2.d.m_isStarted = false ∧
    (start x o1 w).2.d.m_listNodeManagers = w.d.m_listNodeManagers ∧
    nmStartUpCalls (callsSince w (start x o1 w).2) =
      w.d.m_listNodeManagers.map (fun nm => (nm, some o1.getServerManager)) ∧
    (callsSince w (start x o1 w).2).filter Event.isNmShutDown = [] ∧
    (∀ (p : Option Handle) (o2 : StartOracle),
      (start x o2 (setServerConfig p (start x o1 w).2).2).1 = 0 →
      nmStartUpCalls (callsSince w (start x o2 (setServerConfig p (start x o1 w).2).2).2) =
        w.d.m_listNodeManagers.map (fun nm => (nm, some o1.getServerManager)) ++
        w.d.m_listNodeManagers.map (fun nm => (nm, some o2.getServerManager)) ∧
      (callsSince w (start x o2 (setServerConfig p (start x o1 w).2).2).2).filter
        Event.isNmShutDown = []) := by
  obtain ⟨hd1, es, hp, ht1⟩ := start_rolled_back x o1 w cfg hs hc h1 h2 h3 h4 h5
  have hret : (start x o1 w).1 = o1.uaStartUp := by
    rw [start_with_config x o1 w cfg hs hc, startModules_uaStartUp_fails o1 cfg _ h1 h2 h3 h4 h5]
  have hs1 : (start x o1 w).2.d.m_isStarted = false := by rw [hd1]; exact hs
  have hnm1 : (start x o1 w).2.d.m_listNodeManagers = w.d.m_listNodeManagers := by rw [hd1]
  have hc1 := callsSince_append w _ _ ht1
  have hstart1 : nmStartUpCalls (es ++
        (initCalls o1 cfg (createDefaultConfig x w).nextId w.d.m_pOpcServerCallback ++
          startUpCalls o1 cfg (createDefaultConfig x w).nextId w.d.m_listNodeManagers ++
          rollbackCalls o1 cfg (createDefaultConfig x w).nextId)) =
      w.d.m_listNodeManagers.map (fun nm => (nm, some o1.getServerManager)) := by
    have hrb : nmStartUpCalls (rollbackCalls o1 cfg (createDefaultConfig x w).nextId) = [] := rfl
    simp only [nmStartUpCalls_append, nmStartUpCalls_of_config es hp, nmStartUpCalls_initCalls,
      nmStartUpCalls_startUpCalls, hrb, List.nil_append, List.append_nil]
  have hdown1 : (es ++
        (initCalls o1 cfg (createDefaultConfig x w).nextId w.d.m_pOpcServerCallback ++
          startUpCalls o1 cfg (createDefaultConfig x w).nextId w.d.m_listNodeManagers ++
          rollbackCalls o1 cfg (createDefaultConfig x w).nextId)).filter
        Event.isNmShutDown = [] := by
    have hrb : (rollbackCalls o1 cfg (createDefaultConfig x w).nextId).filter
        Event.isNmShutDown = [] := rfl
    simp only [List.filter_append, config_no_nmShutDown es hp, initCalls_no_nmShutDown,
      startUpCalls_no_nmShutDown, hrb, List.append_nil]
  refine ⟨hret, hs1, hnm1, by rw [hc1]; exact hstart1, by rw [hc1]; exact hdown1, ?_⟩
  intro p o2 hz
  have hw2 : (setServerConfig p (start x o1 w).2).2 =
      { (start x o1 w).2 with
        d := { (start x o1 w).2.d with m_pServerConfig := p.map ServerConfig.application } } := by
    simp [setServerConfig, World.setD, hs1]
  have ht2 : (setServerConfig p (start x o1 w).2).2.trace = (start x o1 w).2.trace := by
    rw [hw2]
  have hnm2 : (setServerConfig p (start x o1 w).2).2.d.m_listNodeManagers =
      w.d.m_listNodeManagers := by rw [hw2]; exact hnm1
  obtain ⟨hs2, cfg2, hc2, k1, k2, k3, k4, k5⟩ := start_zero x o2 _ hz
  obtain ⟨_, _, es2, hp2, hcalls2⟩ := start_succeeds x o2 _ cfg2 hs2 hc2 k1 k2 k3 k4 k5
  obtain ⟨b, hb⟩ := start_extends x o2 (setServerConfig p (start x o1 w).2).2
  have hb2 := callsSince_append _ _ _ hb
  rw [hcalls2] at hb2
  have hall : callsSince w (start x o2 (setServerConfig p (start x o1 w).2).2).2 =
      (es ++
        (initCalls o1 cfg (createDefaultConfig x w).nextId w.d.m_pOpcServerCallback ++
          startUpCalls o1 cfg (createDefaultConfig x w).nextId w.d.m_listNodeManagers ++
          rollbackCalls o1 cfg (createDefaultConfig x w).nextId)) ++ b := by
    apply callsSince_append
    rw [hb, ht2, ht1, List.append_assoc]
  rw [hall, ← hb2, hnm2]
  constructor
  · rw [nmStartUpCalls_append, hstart1]
    simp only [nmStartUpCalls_append, nmStartUpCalls_of_config es2 hp2, nmStartUpCalls_initCalls,
      nmStartUpCalls_startUpCalls, nmStartUpCalls_printEndpoints, List.nil_append,
      List.append_nil]
  · rw [List.filter_append, hdown1]
    simp only [List.filter_append, config_no_nmShutDown es2 hp2, initCalls_no_nmShutDown,
      startUpCalls_no_nmShutDown, printEndpoints_no_nmShutDown, List.append_nil]

theorem rollback_keeps_managers_witness :
    (start false uaStartUpFails applicationConfigWorld).1 = -7 ∧
    rolledBackWorld.d.m_listNodeManagers = [10, 11] ∧
    nmStartUpCalls (callsSince applicationConfigWorld rolledBackWorld) =
      [(10, some 100), (11, some 100)] ∧
    nmStartUpCalls (callsSince applicationConfigWorld
        (start false allGood (setServerConfig (some 8) rolledBackWorld).2).2) =
      [(10, some 100), (11, some 100), (10, some 100), (11, some 100)] ∧
    (callsSince applicationConfigWorld
        (start false allGood (setServerConfig (some 8) rolledBackWorld).2).2).filter
      Event.isNmShutDown = [] :=
  ⟨(rollback_keeps_managers false uaStartUpFails applicationConfigWorld
      (ServerConfig.application 7) rfl rfl rfl rfl rfl rfl (by decide)).1,
   (rollback_keeps_managers false uaStartUpFails applicationConfigWorld
      (ServerConfig.application 7) rfl rfl rfl rfl rfl rfl (by decide)).2.2.1,
   (rollback_keeps_managers false uaStartUpFails applicationConfigWorld
      (ServerConfig.application 7) rfl rfl rfl rfl rfl rfl (by decide)).2.2.2.1,
   ((rollback_keeps_managers false uaStartUpFails applicationConfigWorld
      (ServerConfig.application 7) rfl rfl rfl rfl rfl rfl (by decide)).2.2.2.2.2
      (some 8) allGood (by decide)).1,
   ((rollback_keeps_managers false uaStartUpFails applicationConfigWorld
      (ServerConfig.application 7) rfl rfl rfl rfl rfl rfl (by decide)).2.2.2.2.2
      (some 8) allGood (by decide)).2⟩

end OpcServerModel
